import Mathlib

set_option autoImplicit false
set_option maxHeartbeats 1000000
set_option maxRecDepth 8000

set_option allowUnsafeReducibility true
attribute [semireducible] Rat.add Rat.sub Rat.mul Rat.inv Rat.ofScientific

/-! Verification model of the MT5 TradeCopier log-watcher daemon
    (`TradeCopierBot/log_watcher.py`).

    Modelling conventions:
    * Python machine floats are modelled by `ℚ`; `time.time()` values are
      passed in as `ℚ` parameters;
    * CPython regular-expression `search` semantics (leftmost match, greedy
      and non-greedy backtracking) for the fixed patterns of the watcher are
      implemented directly on `List Char`; input lines are single lines, so
      `.` matching is unrestricted;
    * a Python `dict` is modelled by an insertion-ordered association list
      with `dictGet` / `dictSet` / `dictErase`; `hash` of a message is
      modelled injectively (by the message itself);
    * effectful outcomes (database commit success, message delivery success)
      are modelled by boolean oracles passed as arguments. -/

/-- ASCII whitespace: the relevant subset of Python `str.strip` / regex `\s`. -/
def isWsChar (c : Char) : Bool :=
  c = ' ' || c = '\t' || c = '\n' || c = '\r' || c = '\x0b' || c = '\x0c'

/-- Model of Python `str.strip()` (whitespace from both ends). -/
def pyStrip (s : String) : String :=
  ⟨((s.data.dropWhile isWsChar).reverse.dropWhile isWsChar).reverse⟩

/-- Parenthesis characters, for Python `str.strip('()')`. -/
def isParenChar (c : Char) : Bool :=
  c = '(' || c = ')'

/-- Model of Python `str.strip('()')`. -/
def stripParens (s : String) : String :=
  ⟨((s.data.dropWhile isParenChar).reverse.dropWhile isParenChar).reverse⟩

/-- Substring test on character lists (Python `needle in hay`). -/
def subList (needle : List Char) : List Char → Bool
  | [] => needle.isPrefixOf []
  | c :: rest => needle.isPrefixOf (c :: rest) || subList needle rest

/-- Model of Python `needle in hay` on strings. -/
def strContains (hay needle : String) : Bool :=
  subList needle.data hay.data

/-- Model of Python `str.split(',')`: always at least one part, empty parts kept. -/
def splitComma : List Char → List (List Char)
  | [] => [[]]
  | c :: rest =>
    let r := splitComma rest
    if c = ',' then [] :: r
    else
      match r with
      | h :: t => (c :: h) :: t
      | [] => [[c]]

/-- Value of a digit string (Python `int` on a `\d+` match). -/
def digitsToNat (l : List Char) : ℕ :=
  l.foldl (fun n c => n * 10 + (c.toNat - '0'.toNat)) 0

/-- Case analysis on an `Option`, used to keep the parser's branch structure
    rewritable in proofs. -/
def matchOpt {α β : Type} (o : Option α) (f : α → β) (g : β) : β :=
  match o with
  | some a => f a
  | none => g

theorem matchOpt_some {α β : Type} (a : α) (f : α → β) (g : β) :
    matchOpt (some a) f g = f a := rfl

theorem matchOpt_none {α β : Type} (f : α → β) (g : β) :
    matchOpt none f g = g := rfl

/-! Association-list model of Python `dict` (insertion-ordered, unique keys
    when built through `dictSet`). -/

/-- Model of `d.get(k)` / `k in d` (first matching key). -/
def dictGet {β : Type} : List (String × β) → String → Option β
  | [], _ => none
  | (k', v) :: rest, k => if k' = k then some v else dictGet rest k

/-- Model of `d.get(k, dflt)`. -/
def dictGetD {β : Type} (l : List (String × β)) (k : String) (dflt : β) : β :=
  (dictGet l k).getD dflt

/-- Key membership test. -/
def dictHas {β : Type} : List (String × β) → String → Bool
  | [], _ => false
  | (k', _) :: rest, k => k' = k || dictHas rest k

/-- Replace the value at every entry whose key is `k`. -/
def dictReplace {β : Type} : List (String × β) → String → β → List (String × β)
  | [], _, _ => []
  | (k', v') :: rest, k, v => (k', if k' = k then v else v') :: dictReplace rest k v

/-- Model of `d[k] = v`: update in place when present, append when absent. -/
def dictSet {β : Type} (l : List (String × β)) (k : String) (v : β) : List (String × β) :=
  if dictHas l k then dictReplace l k v else l ++ [(k, v)]

/-- Model of `del d[k]`. -/
def dictErase {β : Type} : List (String × β) → String → List (String × β)
  | [], _ => []
  | (k', v) :: rest, k => if k' = k then dictErase rest k else (k', v) :: dictErase rest k

theorem dictGet_dictReplace_self {β : Type} (l : List (String × β)) (k : String) (v : β)
    (h : dictHas l k = true) : dictGet (dictReplace l k v) k = some v := by
  induction l with
  | nil => simp [dictHas] at h
  | cons p rest ih =>
    obtain ⟨k', v'⟩ := p
    by_cases hk : k' = k
    · simp [dictReplace, dictGet, hk]
    · simp [dictHas, hk] at h
      simp [dictReplace, dictGet, hk, ih h]

theorem dictGet_append_notHas {β : Type} (l : List (String × β)) (k : String) (v : β)
    (h : dictHas l k = false) : dictGet (l ++ [(k, v)]) k = some v := by
  induction l with
  | nil => simp [dictGet]
  | cons p rest ih =>
    obtain ⟨k', v'⟩ := p
    by_cases hk : k' = k
    · simp [dictHas, hk] at h
    · simp [dictHas, hk] at h
      simp [dictGet, hk, ih h]

theorem dictGet_dictSet_self {β : Type} (l : List (String × β)) (k : String) (v : β) :
    dictGet (dictSet l k v) k = some v := by
  unfold dictSet
  by_cases h : dictHas l k
  · simp [h, dictGet_dictReplace_self l k v h]
  · simp only [eq_self_iff_true] at *
    rw [if_neg h]
    exact dictGet_append_notHas l k v (by simpa using h)

theorem dictGet_dictReplace_ne {β : Type} (l : List (String × β)) (k k' : String) (v : β)
    (h : k ≠ k') : dictGet (dictReplace l k v) k' = dictGet l k' := by
  induction l with
  | nil => rfl
  | cons p rest ih =>
    obtain ⟨k0, v0⟩ := p
    by_cases hk : k0 = k'
    · subst hk
      simp [dictReplace, dictGet, if_neg (Ne.symm h)]
    · simp [dictReplace, dictGet, hk, ih]

theorem dictGet_append_single_ne {β : Type} (l : List (String × β)) (k k' : String) (v : β)
    (h : k ≠ k') : dictGet (l ++ [(k, v)]) k' = dictGet l k' := by
  induction l with
  | nil => simp [dictGet, if_neg h]
  | cons p rest ih =>
    obtain ⟨k0, v0⟩ := p
    by_cases hk : k0 = k'
    · simp [dictGet, hk]
    · simp [dictGet, hk, ih]

theorem dictGet_dictSet_ne {β : Type} (l : List (String × β)) (k k' : String) (v : β)
    (h : k ≠ k') : dictGet (dictSet l k v) k' = dictGet l k' := by
  unfold dictSet
  by_cases hh : dictHas l k
  · simp [hh, dictGet_dictReplace_ne l k k' v h]
  · rw [if_neg hh]
    exact dictGet_append_single_ne l k k' v h

theorem dictGet_dictErase_self {β : Type} (l : List (String × β)) (k : String) :
    dictGet (dictErase l k) k = none := by
  induction l with
  | nil => rfl
  | cons p rest ih =>
    obtain ⟨k', v⟩ := p
    by_cases hk : k' = k
    · simp [dictErase, hk, ih]
    · simp [dictErase, dictGet, hk, ih]

theorem dictGetD_dictSet_self {β : Type} (l : List (String × β)) (k : String) (v dflt : β) :
    dictGetD (dictSet l k v) k dflt = v := by
  unfold dictGetD
  rw [dictGet_dictSet_self]
  rfl

theorem dictHas_dictReplace {β : Type} (l : List (String × β)) (k k' : String) (v : β) :
    dictHas (dictReplace l k v) k' = dictHas l k' := by
  induction l with
  | nil => rfl
  | cons p rest ih =>
    obtain ⟨k0, v0⟩ := p
    simp [dictReplace, dictHas, ih]

theorem dictHas_of_append {β : Type} (l : List (String × β)) (k : String) (v : β) :
    dictHas (l ++ [(k, v)]) k = true := by
  induction l with
  | nil => simp [dictHas]
  | cons p rest ih =>
    obtain ⟨k0, v0⟩ := p
    by_cases hk : k0 = k
    · simp [dictHas, hk]
    · simp [dictHas, hk, ih]

theorem dictReplace_dictReplace {β : Type} (l : List (String × β)) (k : String) (a b : β) :
    dictReplace (dictReplace l k a) k b = dictReplace l k b := by
  induction l with
  | nil => rfl
  | cons p rest ih =>
    obtain ⟨k0, v0⟩ := p
    by_cases hk : k0 = k <;> simp [dictReplace, hk, ih]

theorem dictReplace_notHas {β : Type} (l : List (String × β)) (k : String) (v : β)
    (h : dictHas l k = false) : dictReplace l k v = l := by
  induction l with
  | nil => rfl
  | cons p rest ih =>
    obtain ⟨k0, v0⟩ := p
    by_cases hk : k0 = k
    · simp [dictHas, hk] at h
    · simp [dictHas, hk] at h
      simp [dictReplace, hk, ih h]

theorem dictReplace_append {β : Type} (l l' : List (String × β)) (k : String) (v : β) :
    dictReplace (l ++ l') k v = dictReplace l k v ++ dictReplace l' k v := by
  induction l with
  | nil => rfl
  | cons p rest ih =>
    obtain ⟨k0, v0⟩ := p
    simp [dictReplace, ih]

theorem dictSet_dictSet_self {β : Type} (l : List (String × β)) (k : String) (a b : β) :
    dictSet (dictSet l k a) k b = dictSet l k b := by
  unfold dictSet
  by_cases h : dictHas l k
  · simp [h, dictHas_dictReplace, dictReplace_dictReplace]
  · rw [if_neg h, if_neg h, if_pos (dictHas_of_append l k a), dictReplace_append,
      dictReplace_notHas l k b (by simpa using h)]
    simp [dictReplace]

/-! Regular-expression model.

    The watcher's patterns are fixed; each is implemented directly with
    CPython `re.search` semantics: the match starts at the leftmost position
    where the whole pattern succeeds; `[^,]+` followed by a literal comma is
    forced to the run up to the next comma; `\d+` and `\s+` are greedy;
    `.+?` / `.*?` are non-greedy; trailing text after the match is ignored.
    Greedy `\s+` backtracking (which can hand whitespace characters to a
    following `[^,]+` group when the character after the whitespace run is a
    comma or the end of input) is implemented by `tryOffsets`. -/

/-- Match `([^,]+),`: the (nonempty) run up to the next comma, which must exist. -/
def splitField (s : List Char) : Option (List Char × List Char) :=
  let g := s.takeWhile (fun c => !(c = ','))
  if g = [] then none
  else
    match s.drop g.length with
    | ',' :: rest => some (g, rest)
    | _ => none

/-- Try the continuation after `\s+` has consumed `k`, `k-1`, …, `1`
    whitespace characters (greedy order). -/
def tryOffsets {α : Type} (P : List Char → Option α) (s : List Char) : ℕ → Option α
  | 0 => none
  | Nat.succ k =>
    match P (s.drop (k + 1)) with
    | some a => some a
    | none => tryOffsets P s k

/-- Match `\s+` followed by `P`, with greedy backtracking over the amount of
    whitespace consumed. -/
def withWs {α : Type} (P : List Char → Option α) (s : List Char) : Option α :=
  tryOffsets P s (s.takeWhile isWsChar).length

/-- Leftmost-match search: try the pattern (literal marker followed by a
    payload matcher) at every position, left to right. -/
def searchAt {α : Type} (marker : List Char) (P : List Char → Option α) : List Char → Option α
  | [] => none
  | c :: rest =>
    if marker.isPrefixOf (c :: rest) then
      match P ((c :: rest).drop marker.length) with
      | some a => some a
      | none => searchAt marker P rest
    else searchAt marker P rest

/-- Groups of `open_pattern`
    `\[TRADE_OPEN\]\s+([^,]+),([^,]+),(.+?),([^,]+),([^,]+),([^,]+),(\d+)`
    (raw, unstripped). -/
structure OpenGroups where
  copy_id : String
  symbol : String
  volume_info : String
  price : String
  source_ticket : String
  source_file : String
  account : String
deriving DecidableEq

/-- Groups of `close_pattern`
    `\[TRADE_CLOSE\]\s+([^,]+),([^,]+),([^,]+),([^,]+),([^,]+),(\d+)(.*)`
    (raw, unstripped). -/
structure CloseGroups where
  copy_id : String
  symbol : String
  source_ticket : String
  profit_or_reason : String
  source_file : String
  account : String
  extra : String
deriving DecidableEq

/-- Groups of `reset_pattern` `\[DD_RESET\]\s+([^,]+),?(.*)`. -/
structure ResetGroups where
  copy_id : String
  detail : String
deriving DecidableEq

/-- Groups of `limit_max_lot_pattern`
    `\[LIMIT_MAX_LOT\]\s+([^,]+),([^,]+),([^,]+),([^,]+)`. -/
structure MaxLotGroups where
  copy_id : String
  source_file : String
  source_vol : String
  limit_vol : String
deriving DecidableEq

/-- Groups of `limit_max_trades_pattern`
    `\[LIMIT_MAX_TRADES\]\s+([^,]+),([^,]+),(\d+),(\d+)`. -/
structure MaxTradesGroups where
  copy_id : String
  source_file : String
  open_trades : String
  limit_trades : String
deriving DecidableEq

/-- Groups of `limit_source_dd_pattern`
    `\[LIMIT_SOURCE_DD\]\s+([^,]+),([^,]+),([^,]+),([^,]+),(\d+)`. -/
structure SourceDdGroups where
  copy_id : String
  source_file : String
  current_pl : String
  limit_dd : String
  closed_count : String
deriving DecidableEq

/-- Tail of the open pattern after the non-greedy group's comma:
    `([^,]+),([^,]+),([^,]+),(\d+)`. -/
def openTail (s : List Char) : Option (List Char × List Char × List Char × List Char) := do
  let (g4, s1) ← splitField s
  let (g5, s2) ← splitField s1
  let (g6, s3) ← splitField s2
  let d := s3.takeWhile Char.isDigit
  if d = [] then none else some (g4, g5, g6, d)

/-- Non-greedy `(.+?),` before `openTail`: the shortest nonempty prefix ending
    at a comma such that the rest of the pattern matches. -/
def openMid (pre : List Char) :
    List Char → Option (List Char × List Char × List Char × List Char × List Char)
  | [] => none
  | c :: rest =>
    if c = ',' then
      if pre = [] then openMid [','] rest
      else
        match openTail rest with
        | some (g4, g5, g6, d) => some (pre, g4, g5, g6, d)
        | none => openMid (pre ++ [',']) rest
    else openMid (pre ++ [c]) rest

/-- Payload of `open_pattern` after the marker and `\s+`. -/
def openPayload (s : List Char) : Option OpenGroups := do
  let (g1, s1) ← splitField s
  let (g2, s2) ← splitField s1
  let (g3, g4, g5, g6, d) ← openMid [] s2
  some ⟨⟨g1⟩, ⟨g2⟩, ⟨g3⟩, ⟨g4⟩, ⟨g5⟩, ⟨g6⟩, ⟨d⟩⟩

/-- Model of `open_pattern.search(line)`. -/
def openMatch (s : String) : Option OpenGroups :=
  searchAt ("[TRADE_OPEN]".data) (withWs openPayload) s.data

/-- Payload of `close_pattern` after the marker and `\s+`. -/
def closePayload (s : List Char) : Option CloseGroups := do
  let (g1, s1) ← splitField s
  let (g2, s2) ← splitField s1
  let (g3, s3) ← splitField s2
  let (g4, s4) ← splitField s3
  let (g5, s5) ← splitField s4
  let d := s5.takeWhile Char.isDigit
  if d = [] then none
  else some ⟨⟨g1⟩, ⟨g2⟩, ⟨g3⟩, ⟨g4⟩, ⟨g5⟩, ⟨d⟩, ⟨s5.drop d.length⟩⟩

/-- Model of `close_pattern.search(line)`. -/
def closeMatch (s : String) : Option CloseGroups :=
  searchAt ("[TRADE_CLOSE]".data) (withWs closePayload) s.data

/-- Payload `\s+(.*)`: greedy whitespace, then the rest of the line. -/
def wsRest (s : List Char) : Option String :=
  let w := (s.takeWhile isWsChar).length
  if w = 0 then none else some ⟨s.drop w⟩

/-- Model of `alert_pattern.search(line)` for `\[DD_ALERT\]\s+(.*)`. -/
def alertMatch (s : String) : Option String :=
  searchAt ("[DD_ALERT]".data) wsRest s.data

/-- Model of `stop_pattern.search(line)` for `\[DD_STOP\]\s+(.*)`. -/
def stopMatch (s : String) : Option String :=
  searchAt ("[DD_STOP]".data) wsRest s.data

/-- Core of the reset payload after `\s+` has yielded a starting position:
    `([^,]+),?(.*)`. -/
def resetCore (s : List Char) : Option ResetGroups :=
  match s with
  | [] => none
  | c :: _ =>
    if c = ',' then none
    else
      let g1 := s.takeWhile (fun ch => !(ch = ','))
      let rest := s.drop g1.length
      some ⟨⟨g1⟩, ⟨match rest with | ',' :: r => r | r => r⟩⟩

/-- Model of `reset_pattern.search(line)` for `\[DD_RESET\]\s+([^,]+),?(.*)`. -/
def resetMatch (s : String) : Option ResetGroups :=
  searchAt ("[DD_RESET]".data) (withWs resetCore) s.data

/-- Payload `\s+-\s+(.*)` of `error_pattern`. Only the maximal `\s+` run can be
    followed by `-` (shorter runs leave a whitespace character there). -/
def errorPayload (s : List Char) : Option String :=
  let w := (s.takeWhile isWsChar).length
  if w = 0 then none
  else
    match s.drop w with
    | '-' :: rest =>
      let w2 := (rest.takeWhile isWsChar).length
      if w2 = 0 then none else some ⟨rest.drop w2⟩
    | _ => none

/-- Model of `error_pattern.search(line)` for `\[ERROR\]\s+-\s+(.*)`. -/
def errorMatch (s : String) : Option String :=
  searchAt ("[ERROR]".data) errorPayload s.data

/-- Payload of `limit_max_lot_pattern` after the marker and `\s+`. -/
def maxLotPayload (s : List Char) : Option MaxLotGroups := do
  let (g1, s1) ← splitField s
  let (g2, s2) ← splitField s1
  let (g3, s3) ← splitField s2
  let g4 := s3.takeWhile (fun c => !(c = ','))
  if g4 = [] then none else some ⟨⟨g1⟩, ⟨g2⟩, ⟨g3⟩, ⟨g4⟩⟩

/-- Model of `limit_max_lot_pattern.search(line)`. -/
def maxLotMatch (s : String) : Option MaxLotGroups :=
  searchAt ("[LIMIT_MAX_LOT]".data) (withWs maxLotPayload) s.data

/-- Payload of `limit_max_trades_pattern` after the marker and `\s+`. -/
def maxTradesPayload (s : List Char) : Option MaxTradesGroups := do
  let (g1, s1) ← splitField s
  let (g2, s2) ← splitField s1
  let d3 := s2.takeWhile Char.isDigit
  if d3 = [] then none
  else
    match s2.drop d3.length with
    | ',' :: s3 =>
      let d4 := s3.takeWhile Char.isDigit
      if d4 = [] then none else some ⟨⟨g1⟩, ⟨g2⟩, ⟨d3⟩, ⟨d4⟩⟩
    | _ => none

/-- Model of `limit_max_trades_pattern.search(line)`. -/
def maxTradesMatch (s : String) : Option MaxTradesGroups :=
  searchAt ("[LIMIT_MAX_TRADES]".data) (withWs maxTradesPayload) s.data

/-- Payload of `limit_source_dd_pattern` after the marker and `\s+`. -/
def sourceDdPayload (s : List Char) : Option SourceDdGroups := do
  let (g1, s1) ← splitField s
  let (g2, s2) ← splitField s1
  let (g3, s3) ← splitField s2
  let (g4, s4) ← splitField s3
  let d := s4.takeWhile Char.isDigit
  if d = [] then none else some ⟨⟨g1⟩, ⟨g2⟩, ⟨g3⟩, ⟨g4⟩, ⟨d⟩⟩

/-- Model of `limit_source_dd_pattern.search(line)`. -/
def sourceDdMatch (s : String) : Option SourceDdGroups :=
  searchAt ("[LIMIT_SOURCE_DD]".data) (withWs sourceDdPayload) s.data

/-! Python `float()` and f-string number formatting, modelled over `ℚ`.
    The grammar covers sign, integer/fraction digits and exponent; the
    special values `inf`/`nan` (not representable in `ℚ`) and underscore
    separators are outside the model. -/

/-- Exponent part `[+-]?\d+` of the Python float grammar. -/
def pyParseExp (mant : ℚ) (r : List Char) : Option ℚ :=
  let (es, r1) : ℤ × List Char :=
    match r with
    | '+' :: r2 => (1, r2)
    | '-' :: r2 => (-1, r2)
    | r2 => (1, r2)
  let ed := r1.takeWhile Char.isDigit
  if ed = [] then none
  else if r1.drop ed.length ≠ [] then none
  else some (mant * (10 : ℚ) ^ (es * (digitsToNat ed : ℤ)))

/-- Model of Python `float(s)` on the finite-number grammar. -/
def pyParseFloat (s : String) : Option ℚ :=
  let l := (pyStrip s).data
  if l = [] then none
  else
    let (sgn, l1) : ℚ × List Char :=
      match l with
      | '+' :: r => (1, r)
      | '-' :: r => (-1, r)
      | r => (1, r)
    let ip := l1.takeWhile Char.isDigit
    let l2 := l1.drop ip.length
    let (fp, l3) : List Char × List Char :=
      match l2 with
      | '.' :: r => (r.takeWhile Char.isDigit, r.drop (r.takeWhile Char.isDigit).length)
      | r => ([], r)
    if ip = [] ∧ fp = [] then none
    else
      let mant : ℚ := sgn * ((digitsToNat ip : ℚ) + (digitsToNat fp : ℚ) / (10 : ℚ) ^ fp.length)
      match l3 with
      | [] => some mant
      | 'e' :: r => pyParseExp mant r
      | 'E' :: r => pyParseExp mant r
      | _ => none

/-- Insert a comma after every third character (input is the reversed digit
    string, as Python `{:,}` groups from the right). -/
def group3 : List Char → List Char
  | a :: b :: c :: d :: rest => a :: b :: c :: ',' :: group3 (d :: rest)
  | l => l

/-- Two-digit zero-padded rendering of `n < 100`. -/
def twoDigit (n : ℕ) : String :=
  if n < 10 then "0" ++ toString n else toString n

/-- Thousands-separated rendering of a natural number. -/
def withThousands (n : ℕ) : String :=
  ⟨(group3 (toString n).data.reverse).reverse⟩

/-- Model of the f-string format `{:,.2f}`. -/
def fmtComma2 (q : ℚ) : String :=
  let c : ℤ := round (q * 100)
  (if c < 0 then "-" else "") ++ withThousands (c.natAbs / 100) ++ "." ++ twoDigit (c.natAbs % 100)

/-- Model of the f-string format `{:.2f}`. -/
def fmt2 (q : ℚ) : String :=
  let c : ℤ := round (q * 100)
  (if c < 0 then "-" else "") ++ toString (c.natAbs / 100) ++ "." ++ twoDigit (c.natAbs % 100)

/-! Data model of the watcher: source registry entries, the mutable module
    state, trade rows, messages, and the parser itself. -/

/-- Entry of `source_name_map` (from `ecosystem.json`): display name and id. -/
structure SourceInfo where
  name : String
  id : String
deriving DecidableEq

/-- The module-level mutable state touched by the parsing/persistence path:
    `state_data` (ticket → source display name), the `state_changed` dirty
    flag, and `g_benign_error_last_sent`. -/
structure ParserState where
  state_data : List (String × String)
  state_changed : Bool
  benign_last_sent : List (String × ℚ)
deriving DecidableEq

/-- The `trade_data_for_db` dict built by the TRADE_CLOSE branch. -/
structure TradeData where
  copy_id : String
  symbol : String
  profit : ℚ
  source_file : String
  source_account_number : ℕ
  source_ticket : String
deriving DecidableEq

/-- `BENIGN_ERROR_CONFIG`: substring key → cooldown seconds, in source order. -/
def BENIGN_ERROR_CONFIG : List (String × ℚ) :=
  [("Market is closed", 3600), ("error 10013", 3600),
   ("Invalid Stops", 600), ("error 130", 600),
   ("Requote", 600), ("error 10004", 600),
   ("Price changed", 600), ("error 10006", 600),
   ("Failed to open source file", 300), ("No connection", 300), ("error 10025", 300)]

/-- The `for error_key, cooldown in BENIGN_ERROR_CONFIG.items(): if error_key
    in error_message: … break` loop: first key contained in the message. -/
def findBenignKey (error_message : String) : Option (String × ℚ) :=
  BENIGN_ERROR_CONFIG.find? (fun p => strContains error_message p.1)

/-- Name resolution `source_name_map.get(f)`, display name with the raw
    filename as fallback. -/
def resolveSourceName (map : List (String × SourceInfo)) (file : String) : String :=
  matchOpt (dictGet map file) (fun i => i.name) file

/-- Message of the TRADE_OPEN branch. -/
def openMsg (source_display_name : String) (source_account_number : ℕ)
    (copy_id symbol volume_info price source_ticket : String) : String :=
  "✅ *New Position Opened*\n\n*Source:* `" ++ source_display_name ++ "` (Acc: `"
    ++ toString source_account_number ++ "`)\n*Copy Account:* `" ++ copy_id
    ++ "`\n*Symbol:* `" ++ symbol ++ "`\n*Volume:* `" ++ volume_info
    ++ "`\n*Open Price:* `" ++ price ++ "`\n*Source Ticket:* `" ++ source_ticket ++ "`"

/-- Message of the TRADE_CLOSE branch. -/
def closeMsg (emoji source_display_name : String) (source_account_number : ℕ)
    (copy_id symbol profit_text source_ticket : String) (reason : Option String) : String :=
  emoji ++ " *Position Closed*\n\n*Source:* `" ++ source_display_name ++ "` (Acc: `"
    ++ toString source_account_number ++ "`)\n*Copy Account:* `" ++ copy_id
    ++ "`\n*Symbol:* `" ++ symbol ++ "`\n*Profit/Loss:* `" ++ profit_text
    ++ "`\n*Source Ticket:* `" ++ source_ticket ++ "`"
    ++ matchOpt reason (fun r => "\n*Reason:* `" ++ r ++ "`") ""

/-- Message of the DD_ALERT branch. -/
def alertMsg (copy_id : String) (dd dollar_loss start_equity peak_equity : ℚ) : String :=
  "🟡 *Daily Drawdown Alert*\n\n*Account:* `" ++ copy_id ++ "`\n*Current Loss:* `%"
    ++ fmt2 dd ++ "` `(-$" ++ fmtComma2 dollar_loss ++ ")`\n*Daily Start Equity:* `$"
    ++ fmtComma2 start_equity ++ "`\n*Daily Peak Equity:* `$" ++ fmtComma2 peak_equity ++ "`"

/-- Message of the DD_STOP branch. -/
def stopMsg (copy_id : String) (dd dollar_loss dd_limit : ℚ) : String :=
  "🔴 *Copy Stopped Due to DD Limit*\n\n*Account:* `" ++ copy_id ++ "`\n*Loss at Stop:* `%"
    ++ fmt2 dd ++ "` `(-$" ++ fmtComma2 dollar_loss ++ ")`\n*Stop Threshold:* `%"
    ++ fmtComma2 dd_limit ++ "`"

/-- Message of the DD_RESET branch. -/
def resetMsg (copy_id details : String) : String :=
  "✅ *Daily DD Lock Released*\n\n*Account:* `" ++ copy_id ++ "`\n*Status:* `" ++ details ++ "`"

/-- Message for a non-benign expert error. -/
def criticalErrorMsg (error_message : String) : String :=
  "🚨 *Critical Expert Error*\n\n`" ++ error_message ++ "`"

/-- Message for a benign expert error that passed throttling. -/
def benignErrorMsg (error_message : String) : String :=
  "🟡 *Benign Error (Rate-Limited)*\n\n`" ++ error_message ++ "`"

/-- Message of the LIMIT_MAX_LOT branch. -/
def maxLotMsg (copy_id source_display_name source_vol limit_vol : String) : String :=
  "🚫 *Max Lot Size Limit*\n\n*Account:* `" ++ copy_id ++ "`\n*Source:* `"
    ++ source_display_name ++ "`\n*Details:* Trade volume `" ++ source_vol
    ++ "` exceeded limit `" ++ limit_vol ++ "`. Trade ignored."

/-- Message of the LIMIT_MAX_TRADES branch. -/
def maxTradesMsg (copy_id source_display_name open_trades limit_trades : String) : String :=
  "🔢 *Max Concurrent Trades Limit*\n\n*Account:* `" ++ copy_id ++ "`\n*Source:* `"
    ++ source_display_name ++ "`\n*Details:* Limit of `" ++ limit_trades
    ++ "` open trades reached (`" ++ open_trades ++ "` currently open). New trade ignored."

/-- Message of the LIMIT_SOURCE_DD branch. -/
def sourceDdMsg (copy_id source_display_name current_pl limit_dd closed_count : String) : String :=
  "💣 *Source Drawdown Limit Hit*\n\n*Account:* `" ++ copy_id ++ "`\n*Source:* `"
    ++ source_display_name ++ "`\n*Details:* Floating P/L (`" ++ current_pl
    ++ "`) reached limit (`-" ++ limit_dd ++ "`). Closed `" ++ closed_count
    ++ "` position(s) from this source."

/-- Message emitted by the `except (ValueError, IndexError, TypeError)` arm. -/
def parseErrorMsg (line : String) : String :=
  "⚠️ *Parse Error in Log*\n`" ++ line ++ "`"

/-- Result pair of the `except` arm: the parse-error message, no trade data. -/
def parseErrorResult (line : String) : Option String × Option TradeData :=
  (some (parseErrorMsg line), none)

/-- The `reason_str` computation of the TRADE_CLOSE branch: the trailing
    parenthetical group (stripped of parens), when nonempty after stripping,
    is appended to the profit-branch reason with a pipe separator. -/
def mkCloseReason (reason0 : Option String) (extraStripped : String) : Option String :=
  if extraStripped = "" then reason0
  else
    let extra_reason := stripParens extraStripped
    matchOpt reason0 (fun r => some (r ++ " | " ++ extra_reason)) (some extra_reason)

/-- TRADE_OPEN branch: formats the message and upserts the correlation entry
    (setting the dirty flag) when the stored name differs. -/
def open_branch (map : List (String × SourceInfo)) (st : ParserState) (g : OpenGroups) :
    (Option String × Option TradeData) × ParserState :=
  let copy_id := pyStrip g.copy_id
  let symbol := pyStrip g.symbol
  let volume_info := pyStrip g.volume_info
  let price := pyStrip g.price
  let source_ticket := pyStrip g.source_ticket
  let source_file := pyStrip g.source_file
  let source_account_number := digitsToNat (pyStrip g.account).data
  let source_display_name := resolveSourceName map source_file
  let st' :=
    if dictGet st.state_data source_ticket ≠ some source_display_name then
      { st with state_data := dictSet st.state_data source_ticket source_display_name,
                state_changed := true }
    else st
  ((some (openMsg source_display_name source_account_number copy_id symbol volume_info
      price source_ticket), none), st')

/-- TRADE_CLOSE branch: resolves the display name from the correlation store
    (fallback: raw source filename), accepts numeric profit or free-text
    reason, and builds the `trade_data_for_db` row. Leaves the state alone. -/
def close_branch (st : ParserState) (g : CloseGroups) : Option String × Option TradeData :=
  let copy_id := pyStrip g.copy_id
  let symbol := pyStrip g.symbol
  let source_ticket := pyStrip g.source_ticket
  let profit_or_reason := pyStrip g.profit_or_reason
  let source_file := pyStrip g.source_file
  let source_account_number := digitsToNat (pyStrip g.account).data
  let source_display_name := (dictGet st.state_data source_ticket).getD source_file
  let pr := pyParseFloat profit_or_reason
  let profit_float : ℚ := matchOpt pr (fun q => q) 0
  let profit_text : String :=
    matchOpt pr (fun q => if q ≥ 0 then "+$" ++ fmtComma2 q else "-$" ++ fmtComma2 (-q)) "N/A"
  let reason0 : Option String := matchOpt pr (fun _ => none) (some profit_or_reason)
  let emoji : String := matchOpt pr (fun q => if q ≥ 0 then "☑️" else "🔻") "ℹ️"
  let reason_str := mkCloseReason reason0 (pyStrip g.extra)
  (some (closeMsg emoji source_display_name source_account_number copy_id symbol
      profit_text source_ticket reason_str),
   some { copy_id := copy_id, symbol := symbol, profit := profit_float,
          source_file := source_file, source_account_number := source_account_number,
          source_ticket := source_ticket })

/-- DD_ALERT branch on the comma-split parts: arity 5 and four float
    conversions, otherwise the ValueError lands in the `except` arm. -/
def alert_branch_core (line : String) : List String → Option String × Option TradeData
  | [copy_id, dd, dollar_loss, start_equity, peak_equity] =>
    match pyParseFloat dd, pyParseFloat dollar_loss,
        pyParseFloat start_equity, pyParseFloat peak_equity with
    | some q1, some q2, some q3, some q4 => (some (alertMsg copy_id q1 q2 q3 q4), none)
    | _, _, _, _ => parseErrorResult line
  | _ => parseErrorResult line

/-- DD_ALERT branch: split the captured payload on commas and strip parts. -/
def alert_branch (line payload : String) : Option String × Option TradeData :=
  alert_branch_core line ((splitComma payload.data).map (fun l => pyStrip ⟨l⟩))

/-- DD_STOP branch on the comma-split parts: arity 6; only `dd`,
    `dollar_loss` and `dd_limit` are converted (start/peak equity are unpacked
    but never passed through `float`). -/
def stop_branch_core (line : String) : List String → Option String × Option TradeData
  | [copy_id, dd, dd_limit, dollar_loss, _start_equity, _peak_equity] =>
    match pyParseFloat dd, pyParseFloat dollar_loss, pyParseFloat dd_limit with
    | some q1, some q2, some q3 => (some (stopMsg copy_id q1 q2 q3), none)
    | _, _, _ => parseErrorResult line
  | _ => parseErrorResult line

/-- DD_STOP branch: split the captured payload on commas and strip parts. -/
def stop_branch (line payload : String) : Option String × Option TradeData :=
  stop_branch_core line ((splitComma payload.data).map (fun l => pyStrip ⟨l⟩))

/-- DD_RESET branch: empty detail falls back to a fixed status line. -/
def reset_branch (g : ResetGroups) : Option String × Option TradeData :=
  let copy_id := pyStrip g.copy_id
  let tmp := pyStrip g.detail
  let details := if tmp = "" then "Copying re-enabled" else tmp
  (some (resetMsg copy_id details), none)

/-- ERROR branch: benign-substring lookup, per-key cooldown check against
    `g_benign_error_last_sent`; non-benign messages always alert. -/
def error_branch (st : ParserState) (now : ℚ) (g : String) :
    (Option String × Option TradeData) × ParserState :=
  let error_message := pyStrip g
  matchOpt (findBenignKey error_message)
    (fun kc =>
      let last_sent_time := dictGetD st.benign_last_sent kc.1 0
      if now - last_sent_time > kc.2 then
        ((some (benignErrorMsg error_message), none),
         { st with benign_last_sent := dictSet st.benign_last_sent kc.1 now })
      else ((none, none), st))
    ((some (criticalErrorMsg error_message), none), st)

/-- LIMIT_MAX_LOT branch. -/
def max_lot_branch (map : List (String × SourceInfo)) (g : MaxLotGroups) :
    Option String × Option TradeData :=
  let copy_id := pyStrip g.copy_id
  let source_file := pyStrip g.source_file
  let source_vol := pyStrip g.source_vol
  let limit_vol := pyStrip g.limit_vol
  (some (maxLotMsg copy_id (resolveSourceName map source_file) source_vol limit_vol), none)

/-- LIMIT_MAX_TRADES branch. -/
def max_trades_branch (map : List (String × SourceInfo)) (g : MaxTradesGroups) :
    Option String × Option TradeData :=
  let copy_id := pyStrip g.copy_id
  let source_file := pyStrip g.source_file
  let open_trades := pyStrip g.open_trades
  let limit_trades := pyStrip g.limit_trades
  (some (maxTradesMsg copy_id (resolveSourceName map source_file) open_trades limit_trades), none)

/-- LIMIT_SOURCE_DD branch. -/
def source_dd_branch (map : List (String × SourceInfo)) (g : SourceDdGroups) :
    Option String × Option TradeData :=
  let copy_id := pyStrip g.copy_id
  let source_file := pyStrip g.source_file
  let current_pl := pyStrip g.current_pl
  let limit_dd := pyStrip g.limit_dd
  let closed_count := pyStrip g.closed_count
  (some (sourceDdMsg copy_id (resolveSourceName map source_file) current_pl limit_dd
      closed_count), none)

/-- Model of `parse_and_format_log_line` together with the module state it
    reads and mutates; `now` is the value `time.time()` would return while
    the call runs. Returns `(formatted_message, trade_data_for_db)` and the
    state afterwards. -/
def parse_and_format_log_line (map : List (String × SourceInfo)) (now : ℚ)
    (rawLine : String) (st : ParserState) :
    (Option String × Option TradeData) × ParserState :=
  let line := pyStrip rawLine
  if line = "" then ((none, none), st)
  else
    matchOpt (openMatch line) (fun g => open_branch map st g)
      (matchOpt (closeMatch line) (fun g => (close_branch st g, st))
        (matchOpt (alertMatch line) (fun p => (alert_branch line p, st))
          (matchOpt (stopMatch line) (fun p => (stop_branch line p, st))
            (matchOpt (resetMatch line) (fun g => (reset_branch g, st))
              (matchOpt (errorMatch line) (fun g => error_branch st now g)
                (matchOpt (maxLotMatch line) (fun g => (max_lot_branch map g, st))
                  (matchOpt (maxTradesMatch line) (fun g => (max_trades_branch map g, st))
                    (matchOpt (sourceDdMatch line) (fun g => (source_dd_branch map g, st))
                      ((none, none), st)))))))))

/-- Model of `save_trade_to_db`: the upsert of the correlation entry to the
    currently-resolved name, then — only when the INSERT/commit succeeds
    (`db_ok`) — the deletion of the entry. On failure the exception handler
    only logs, so the upserted entry stays. -/
def save_trade_to_db (map : List (String × SourceInfo)) (trade : TradeData)
    (db_ok : Bool) (st : ParserState) : ParserState :=
  let source_name_for_state := resolveSourceName map trade.source_file
  let st1 :=
    if dictGet st.state_data trade.source_ticket ≠ some source_name_for_state then
      { st with state_data := dictSet st.state_data trade.source_ticket source_name_for_state,
                state_changed := true }
    else st
  if db_ok then
    if (dictGet st1.state_data trade.source_ticket).isSome then
      { st1 with state_data := dictErase st1.state_data trade.source_ticket,
                 state_changed := true }
    else st1
  else st1

/-- One line of the Tailer pipeline (`follow_log_file` body): parse, then —
    when trade data was produced — hand it to the ledger writer. -/
def process_line (map : List (String × SourceInfo)) (now : ℚ) (line : String)
    (db_ok : Bool) (st : ParserState) :
    (Option String × Option TradeData) × ParserState :=
  let r := parse_and_format_log_line map now line st
  (r.1, matchOpt r.1.2 (fun trade => save_trade_to_db map trade db_ok r.2) r.2)

/-! Alert dispatcher (`send_telegram_alert`): module-level dedup state, a
    retry loop of `max_retries + 1 = 4` attempts against a success oracle.
    The returned number counts send attempts to the primary destination. -/

/-- The dedup globals `last_message_hash` / `last_message_time`; the hash is
    modelled injectively by the message itself (initial hash `None`). -/
structure AlertState where
  last_message_hash : Option String
  last_message_time : ℚ
deriving DecidableEq

/-- `DEDUPLICATION_COOLDOWN` seconds. -/
def DEDUPLICATION_COOLDOWN : ℚ := 10

/-- Outcome of the `for attempt in range(max_retries + 1)` loop against the
    per-attempt success oracle: attempts made and whether one succeeded. -/
def attemptOutcome (results : ℕ → Bool) : ℕ × Bool :=
  if results 0 then (1, true)
  else if results 1 then (2, true)
  else if results 2 then (3, true)
  else if results 3 then (4, true)
  else (4, false)

/-- Model of `send_telegram_alert`: returns the number of delivery attempts
    made to the target and the dedup state afterwards. `target_set` models
    `CHANNEL_ID or ADMIN_ID` being configured; `now` is `time.time()` at the
    duplicate check (also stored on success). The admin fallback after total
    failure goes to a different destination and is not counted. -/
def send_telegram_alert (target_set : Bool) (results : ℕ → Bool) (st : AlertState)
    (now : ℚ) (message : String) : ℕ × AlertState :=
  if ¬ target_set then (0, st)
  else if st.last_message_hash = some message ∧
      now - st.last_message_time < DEDUPLICATION_COOLDOWN then (0, st)
  else
    let r := attemptOutcome results
    if r.2 then (r.1, { last_message_hash := some message, last_message_time := now })
    else (r.1, st)

/-! Rotation Manager: the per-cycle scan of `main`'s `while True` loop that
    groups log files by slave id and (re)starts Tailers on the newest file. -/

/-- A log file as the scan sees it: full path (`glob` result), basename, and
    `os.path.getctime`. -/
structure FileInfo where
  path : String
  base : String
  ctime : ℚ
deriving DecidableEq

/-- The suffix `_\d{4}\.\d{2}\.\d{2}\.log` of the filename pattern. -/
def dateSuffix : List Char → Bool
  | '_' :: a :: b :: c :: d :: '.' :: e :: f :: '.' :: g :: h :: '.' :: 'l' :: 'o' :: 'g' :: _ =>
    a.isDigit && b.isDigit && c.isDigit && d.isDigit &&
      e.isDigit && f.isDigit && g.isDigit && h.isDigit
  | _ => false

/-- Non-greedy `(.*?)` scan: the shortest capture after which the date suffix
    matches. -/
def idScan (acc : List Char) : List Char → Option (List Char)
  | [] => none
  | c :: rest => if dateSuffix (c :: rest) then some acc else idScan (acc ++ [c]) rest

/-- Model of `re.search(r"TradeCopier_(.*?)_\d{4}\.\d{2}\.\d{2}\.log", base)`,
    returning group 1. -/
def extract_slave_id (base : String) : Option String :=
  (searchAt ("TradeCopier_".data) (fun s => idScan [] s) base.data).map (fun l => ⟨l⟩)

/-- Append a file to its id's group, `dict.setdefault(id, []).append(f)`
    semantics (insertion-ordered). -/
def addToGroup (g : List (String × List FileInfo)) (id : String) (f : FileInfo) :
    List (String × List FileInfo) :=
  match g with
  | [] => [(id, [f])]
  | (k, fs) :: t => if k = id then (k, fs ++ [f]) :: t else (k, fs) :: addToGroup t id f

/-- The `slaves_logs` grouping loop: extract an id per file, skip files whose
    name does not match or whose id is empty. -/
def group_files_from (acc : List (String × List FileInfo)) :
    List FileInfo → List (String × List FileInfo)
  | [] => acc
  | f :: rest =>
    group_files_from
      (matchOpt (extract_slave_id f.base)
        (fun id => if id = "" then acc else addToGroup acc id f) acc) rest

/-- Grouping of the scanned files by slave id. -/
def group_files (files : List FileInfo) : List (String × List FileInfo) :=
  group_files_from [] files

/-- Python `max(files, key=os.path.getctime)`: keeps the first of several
    maxima (replacement only on strictly greater key). -/
def pick_latest (f : FileInfo) (fs : List FileInfo) : FileInfo :=
  fs.foldl (fun best g => if best.ctime < g.ctime then g else best) f

/-- `max` on a possibly-empty group (groups are never empty in practice). -/
def latest_file : List FileInfo → Option FileInfo
  | [] => none
  | f :: fs => some (pick_latest f fs)

/-- The per-group body of the scan loop over `watched_slaves` (id → tailed
    file path): counts cooperative cancellations and task starts. -/
def scan_groups : List (String × List FileInfo) →
    List (String × String) × ℕ × ℕ → List (String × String) × ℕ × ℕ
  | [], acc => acc
  | (id, fs) :: rest, (w, cancels, starts) =>
    scan_groups rest
      (matchOpt (latest_file fs)
        (fun latest =>
          if dictGet w id = some latest.path then (w, cancels, starts)
          else (dictSet w id latest.path,
            cancels + (if (dictGet w id).isSome then 1 else 0), starts + 1))
        (w, cancels, starts))

/-- One Rotation Manager cycle: group the directory listing, pick the newest
    file per id, cancel/start Tailers where the tailed file differs. Returns
    the new `watched_slaves` map and the numbers of cancelled and started
    Tailers. -/
def rotation_scan (files : List FileInfo) (watched : List (String × String)) :
    List (String × String) × ℕ × ℕ :=
  scan_groups (group_files files) (watched, 0, 0)

/-! Source Health Monitor (`source_health_check`): per-source status machine
    driven by the observed file mtime. -/

/-- The status strings kept in `source_statuses`. -/
inductive SrcStatus where
  | connected
  | disconnected
  | file_not_found
deriving DecidableEq

/-- One `source_statuses` entry. -/
structure StatusInfo where
  status : SrcStatus
  last_alert_time : ℚ
deriving DecidableEq

/-- Result of `os.path.getmtime`: the mtime, or `FileNotFoundError`. -/
inductive MtimeObs where
  | found (mtime : ℚ)
  | missing
deriving DecidableEq

/-- The four alert messages the health monitor can send. -/
inductive HealthAlert where
  | disconnectAlert
  | stillDisconnectedAlert
  | reconnectAlert
  | fileNotFoundAlert
deriving DecidableEq

/-- `DISCONNECT_THRESHOLD` seconds. -/
def DISCONNECT_THRESHOLD : ℚ := 120

/-- `ALERT_COOLDOWN` seconds (disconnect re-alert). -/
def ALERT_COOLDOWN : ℚ := 300

/-- One scan of one source file: the body of the `for file_path, source_info
    in source_name_map.items()` loop, on that file's `source_statuses` entry
    (absent entry defaults to connected with last-alert 0). Returns the new
    entry and the alerts sent. -/
def source_health_check_step (now : ℚ) (obs : MtimeObs) (cur : Option StatusInfo) :
    Option StatusInfo × List HealthAlert :=
  match obs with
  | MtimeObs.found mtime =>
    let info := cur.getD ⟨SrcStatus.connected, 0⟩
    if now - mtime > DISCONNECT_THRESHOLD then
      if info.status = SrcStatus.connected then
        (some ⟨SrcStatus.disconnected, now⟩, [HealthAlert.disconnectAlert])
      else if now - info.last_alert_time > ALERT_COOLDOWN then
        (some ⟨info.status, now⟩, [HealthAlert.stillDisconnectedAlert])
      else (cur, [])
    else
      if info.status = SrcStatus.disconnected then
        (some ⟨SrcStatus.connected, 0⟩, [HealthAlert.reconnectAlert])
      else (cur, [])
  | MtimeObs.missing =>
    match cur with
    | none => (some ⟨SrcStatus.file_not_found, now⟩, [HealthAlert.fileNotFoundAlert])
    | some info =>
      if info.status ≠ SrcStatus.file_not_found then
        (some ⟨SrcStatus.file_not_found, now⟩, [HealthAlert.fileNotFoundAlert])
      else (cur, [])

/-- A sequence of scans of one source, collecting the alerts in order. -/
def source_health_run : List (ℚ × MtimeObs) → Option StatusInfo →
    Option StatusInfo × List HealthAlert
  | [], cur => (cur, [])
  | (t, o) :: rest, cur =>
    let r := source_health_check_step t o cur
    let r' := source_health_run rest r.1
    (r'.1, r.2 ++ r'.2)

/-- The registry-cleanup pass at the end of a health-check cycle: entries for
    sources no longer in `source_name_map` are deleted. -/
def prune_statuses (checked : List String) (m : List (String × StatusInfo)) :
    List (String × StatusInfo) :=
  m.filter (fun p => decide (p.1 ∈ checked))

/-! Correlation-state file (`save_watcher_state` / `load_watcher_state`):
    JSON values, the write-temp-then-rename save with crash points, and the
    validating load. -/

/-- JSON values as produced by `json.load`. -/
inductive JsonVal where
  | str (s : String)
  | num (q : ℚ)
  | boolean (b : Bool)
  | null
  | arr (elems : List JsonVal)
  | obj (fields : List (String × JsonVal))

/-- Content of a file slot: absent, unparseable bytes (e.g. a torn write), or
    a parsed JSON document. -/
inductive FileContent where
  | absent
  | invalid
  | json (j : JsonVal)

/-- The validation `all(isinstance(k, str) and isinstance(v, str) …)` on an
    object's fields (JSON object keys are strings by construction). -/
def flatPairs : List (String × JsonVal) → Option (List (String × String))
  | [] => some []
  | (k, JsonVal.str s) :: rest => (flatPairs rest).map (fun m => (k, s) :: m)
  | _ => none

/-- Model of `load_watcher_state`: a missing, unparseable or structurally
    invalid file yields the empty state; exceptions never escape. -/
def load_watcher_state : FileContent → List (String × String)
  | FileContent.absent => []
  | FileContent.invalid => []
  | FileContent.json j =>
    match j with
    | JsonVal.obj fields => (flatPairs fields).getD []
    | _ => []

/-- Serialization of the state dict by `json.dump`. -/
def serialize_state (m : List (String × String)) : FileContent :=
  FileContent.json (JsonVal.obj (m.map (fun p => (p.1, JsonVal.str p.2))))

/-- The two file slots involved in a save: the live state file and the
    temporary file. -/
structure FsState where
  live : FileContent
  tmp : Option FileContent

/-- Where a crash can interrupt `save_watcher_state`. -/
inductive CrashPoint where
  | beforeWrite
  | duringTmpWrite
  | afterTmpWrite
  | afterReplace

/-- Model of `save_watcher_state` interrupted at a crash point: the write to
    `tmp_path` may tear (leaving unparseable bytes there), and `os.replace`
    atomically moves the temp file over the live file. -/
def save_watcher_state (m : List (String × String)) (fs : FsState) :
    CrashPoint → FsState
  | CrashPoint.beforeWrite => fs
  | CrashPoint.duringTmpWrite => { fs with tmp := some FileContent.invalid }
  | CrashPoint.afterTmpWrite => { fs with tmp := some (serialize_state m) }
  | CrashPoint.afterReplace => { live := serialize_state m, tmp := none }

/-! Helper facts about empty-line matches. -/

theorem alertMatch_empty : alertMatch "" = none := by decide

theorem errorMatch_empty : errorMatch "" = none := by decide

/-- Claim C1 (counterexample). The claim says the correlation entry for the
    closed ticket is absent after the pipeline, regardless of whether the
    ledger append succeeded or failed. On a ledger failure the entry is in
    fact still present (and re-upserted to the resolved name): processing the
    valid close line for ticket 178662307 with a prior entry
    `"Alpha Feed"` and a failing ledger append leaves the entry mapped to
    `"SourceA.log"`. -/
theorem trade_close_ledger_failure_keeps_entry_cex :
    dictGet ((process_line [] 0
        "[TRADE_CLOSE] copy_A,XAUUSD,178662307,-5.06,SourceA.log,55512" false
        ⟨[("178662307", "Alpha Feed")], false, []⟩).2).state_data "178662307"
      = some "SourceA.log" := by decide

/-- Claim C1 (amended). After `save_trade_to_db` the correlation entry for
    the closed ticket is deleted exactly when the ledger append succeeded;
    when the append fails, the entry is present, set to the currently
    resolved source name (display name from the registry, falling back to
    the raw filename). -/
theorem save_trade_deletes_entry_only_on_success
    (map : List (String × SourceInfo)) (trade : TradeData) (st : ParserState) :
    dictGet (save_trade_to_db map trade true st).state_data trade.source_ticket = none
    ∧ dictGet (save_trade_to_db map trade false st).state_data trade.source_ticket
        = some (resolveSourceName map trade.source_file) := by
  unfold save_trade_to_db
  by_cases h : dictGet st.state_data trade.source_ticket
      = some (resolveSourceName map trade.source_file)
  · constructor
    · simp only [h, ne_eq, not_true_eq_false, if_false, if_true, Option.isSome_some,
        if_pos]
      simp [h, dictGet_dictErase_self]
    · simp [h]
  · constructor
    · simp only [ne_eq, h, not_false_eq_true, if_true]
      simp [dictGet_dictSet_self, dictGet_dictErase_self]
    · simp only [ne_eq, h, not_false_eq_true, if_true]
      simp [dictGet_dictSet_self]

/-- Claim C2 (counterexample). The claim says a parser call leaves all
    mutable program state unchanged. Parsing a valid TRADE_OPEN line mutates
    the correlation map and the dirty flag. -/
theorem parser_mutates_state_cex :
    (parse_and_format_log_line [] 0 "[TRADE_OPEN] a,b,c,d,5,f.log,7"
        ⟨[], false, []⟩).2 = (⟨[("5", "f.log")], true, []⟩ : ParserState)
    ∧ (parse_and_format_log_line [] 0 "[TRADE_OPEN] a,b,c,d,5,f.log,7"
        ⟨[], false, []⟩).2 ≠ (⟨[], false, []⟩ : ParserState) := by
  constructor <;> decide

/-- Claim C2 (amended). The parser is deterministic in the line, the source
    registry, the mutable state and the clock value — two calls with all of
    these equal return equal results — but it is not stateless: TRADE_OPEN
    lines may update the correlation map and dirty flag, and ERROR lines may
    update the benign last-sent table; a call on any line matching neither
    the TRADE_OPEN nor the ERROR pattern returns the state unchanged. -/
theorem parser_deterministic_mutation_scope :
    (∀ (map : List (String × SourceInfo)) (now : ℚ) (line : String) (st : ParserState),
      parse_and_format_log_line map now line st = parse_and_format_log_line map now line st)
    ∧ ∀ (map : List (String × SourceInfo)) (now : ℚ) (line : String) (st : ParserState),
        openMatch (pyStrip line) = none → errorMatch (pyStrip line) = none →
        (parse_and_format_log_line map now line st).2 = st := by
  refine ⟨fun _ _ _ _ => rfl, ?_⟩
  intro map now line st hOpen hErr
  simp only [parse_and_format_log_line]
  by_cases hne : pyStrip line = ""
  · rw [if_pos hne]
  · rw [if_neg hne, hOpen, matchOpt_none]
    cases hc : closeMatch (pyStrip line) with
    | some g => rw [matchOpt_some]
    | none =>
      rw [matchOpt_none]
      cases ha : alertMatch (pyStrip line) with
      | some p => rw [matchOpt_some]
      | none =>
        rw [matchOpt_none]
        cases hs : stopMatch (pyStrip line) with
        | some p => rw [matchOpt_some]
        | none =>
          rw [matchOpt_none]
          cases hr : resetMatch (pyStrip line) with
          | some g => rw [matchOpt_some]
          | none =>
            rw [matchOpt_none, hErr, matchOpt_none]
            cases hm1 : maxLotMatch (pyStrip line) with
            | some g => rw [matchOpt_some]
            | none =>
              rw [matchOpt_none]
              cases hm2 : maxTradesMatch (pyStrip line) with
              | some g => rw [matchOpt_some]
              | none =>
                rw [matchOpt_none]
                cases hm3 : sourceDdMatch (pyStrip line) with
                | some g => rw [matchOpt_some]
                | none => rw [matchOpt_none]

/-- Witness for the amended C2 theorem at a concrete non-open, non-error line. -/
theorem parser_deterministic_mutation_scope_witness :
    openMatch (pyStrip "hello world") = none
    ∧ errorMatch (pyStrip "hello world") = none
    ∧ (parse_and_format_log_line [] 0 "hello world" ⟨[], false, []⟩).2
        = (⟨[], false, []⟩ : ParserState) :=
  ⟨by decide, by decide,
    parser_deterministic_mutation_scope.2 [] 0 "hello world" ⟨[], false, []⟩
      (by decide) (by decide)⟩

/-- Claim C5. Two invocations of the alert dispatcher with identical
    messages, the first delivered on its first attempt, the second within the
    deduplication window: exactly one delivery attempt is made in total —
    the second invocation is dropped without sending and leaves the dedup
    state untouched. -/
theorem dedup_second_invocation_dropped (t1 t2 : ℚ) (m : String)
    (r1 r2 : ℕ → Bool) (st0 : AlertState)
    (h0 : ¬(st0.last_message_hash = some m
        ∧ t1 - st0.last_message_time < DEDUPLICATION_COOLDOWN))
    (hr : r1 0 = true)
    (hdt : t2 - t1 < DEDUPLICATION_COOLDOWN) :
    (send_telegram_alert true r1 st0 t1 m).1 = 1
    ∧ send_telegram_alert true r2 (send_telegram_alert true r1 st0 t1 m).2 t2 m
        = (0, (send_telegram_alert true r1 st0 t1 m).2) := by
  have hsend : send_telegram_alert true r1 st0 t1 m = (1, ⟨some m, t1⟩) := by
    unfold send_telegram_alert
    rw [if_neg (by simp), if_neg h0]
    simp [attemptOutcome, hr]
  rw [hsend]
  refine ⟨rfl, ?_⟩
  unfold send_telegram_alert
  rw [if_neg (by simp), if_pos ⟨rfl, hdt⟩]

/-- Witness for C5 at a concrete pair of calls five seconds apart. -/
theorem dedup_second_invocation_dropped_witness :
    ((fun _ => true) : ℕ → Bool) 0 = true
    ∧ (5 : ℚ) - 0 < DEDUPLICATION_COOLDOWN
    ∧ (send_telegram_alert true (fun _ => true) ⟨none, 0⟩ 0 "msg").1 = 1
    ∧ send_telegram_alert true (fun _ => true)
        (send_telegram_alert true (fun _ => true) ⟨none, 0⟩ 0 "msg").2 5 "msg"
      = (0, (send_telegram_alert true (fun _ => true) ⟨none, 0⟩ 0 "msg").2) :=
  ⟨rfl, by decide,
    (dedup_second_invocation_dropped 0 5 "msg" (fun _ => true) (fun _ => true)
      ⟨none, 0⟩ (by simp) rfl (by decide)).1,
    (dedup_second_invocation_dropped 0 5 "msg" (fun _ => true) (fun _ => true)
      ⟨none, 0⟩ (by simp) rfl (by decide)).2⟩

/-- Claim C9. Persisting the correlation-state file is crash-atomic: at
    every crash point of the write-temp-then-rename save, the live file holds
    either its previous content or the full serialized new state. On load,
    the result is the validated flat string→string map of a valid JSON
    object file, and the empty map in every other case (missing file, torn
    bytes, or failed structural validation); the load is total, so no
    exception propagates. Serialization round-trips through the load. -/
theorem state_file_atomic_save_and_validated_load
    (m : List (String × String)) (fs : FsState) (cp : CrashPoint) :
    ((save_watcher_state m fs cp).live = fs.live
      ∨ (save_watcher_state m fs cp).live = serialize_state m)
    ∧ (∀ fc : FileContent,
        (∃ fields, fc = FileContent.json (JsonVal.obj fields)
          ∧ flatPairs fields = some (load_watcher_state fc))
        ∨ load_watcher_state fc = [])
    ∧ load_watcher_state (serialize_state m) = m := by
  refine ⟨?_, ?_, ?_⟩
  · cases cp
    · exact Or.inl rfl
    · exact Or.inl rfl
    · exact Or.inl rfl
    · exact Or.inr rfl
  · intro fc
    cases fc with
    | absent => exact Or.inr rfl
    | invalid => exact Or.inr rfl
    | json j =>
      cases j with
      | obj fields =>
        cases hf : flatPairs fields with
        | none => exact Or.inr (by simp [load_watcher_state, hf])
        | some mm =>
          exact Or.inl ⟨fields, rfl, by simp [load_watcher_state, hf]⟩
      | str s => exact Or.inr rfl
      | num q => exact Or.inr rfl
      | boolean b => exact Or.inr rfl
      | null => exact Or.inr rfl
      | arr elems => exact Or.inr rfl
  · have hflat : ∀ mm : List (String × String),
        flatPairs (mm.map (fun p => (p.1, JsonVal.str p.2))) = some mm := by
      intro mm
      induction mm with
      | nil => rfl
      | cons p rest ih =>
        obtain ⟨k, v⟩ := p
        simp [flatPairs, ih]
    simp [load_watcher_state, serialize_state, hflat m]

/-- Claim C10. Once a source is in the `file_not_found` state, a health-check
    step never changes its status back and never emits a reconnection alert,
    whatever the observation (including the file reappearing with a fresh
    mtime); the entry is removed from the status map only by the
    registry-cleanup pass, which keeps exactly the registered sources. -/
theorem file_not_found_is_terminal (now la : ℚ) (obs : MtimeObs)
    (checked : List String) (m : List (String × StatusInfo)) (f : String) :
    ((source_health_check_step now obs (some ⟨SrcStatus.file_not_found, la⟩)).1.map
        StatusInfo.status = some SrcStatus.file_not_found)
    ∧ HealthAlert.reconnectAlert ∉
        (source_health_check_step now obs (some ⟨SrcStatus.file_not_found, la⟩)).2
    ∧ dictGet (prune_statuses checked m) f
        = if f ∈ checked then dictGet m f else none := by
  refine ⟨?_, ?_, ?_⟩
  · cases obs with
    | found mtime =>
      by_cases h1 : now - mtime > DISCONNECT_THRESHOLD
      · by_cases h2 : now - la > ALERT_COOLDOWN
        · simp [source_health_check_step, h1, h2]
        · simp [source_health_check_step, h1, h2]
      · simp [source_health_check_step, h1]
    | missing => simp [source_health_check_step]
  · cases obs with
    | found mtime =>
      by_cases h1 : now - mtime > DISCONNECT_THRESHOLD
      · by_cases h2 : now - la > ALERT_COOLDOWN
        · simp [source_health_check_step, h1, h2]
        · simp [source_health_check_step, h1, h2]
      · simp [source_health_check_step, h1]
    | missing => simp [source_health_check_step]
  · induction m with
    | nil => simp [prune_statuses, dictGet]
    | cons p rest ih =>
      obtain ⟨k, v⟩ := p
      by_cases hk : k = f
      · subst hk
        by_cases hc : k ∈ checked
        · simp [prune_statuses, List.filter_cons, hc, dictGet]
        · have : dictGet (prune_statuses checked rest) k = none := by
            rw [ih, if_neg hc]
          simp [prune_statuses, List.filter_cons, hc, dictGet] at this ⊢
          exact this
      · by_cases hc : k ∈ checked
        · have := ih
          simp only [prune_statuses, List.filter_cons, hc] at this ⊢
          simpa [dictGet, hk] using this
        · have := ih
          simp only [prune_statuses, List.filter_cons, hc] at this ⊢
          simpa [dictGet, hk] using this

/-- Witness for C10 at a concrete fresh-mtime observation and a concrete
    status map. -/
theorem file_not_found_is_terminal_witness :
    ((source_health_check_step 1000 (MtimeObs.found 999)
        (some ⟨SrcStatus.file_not_found, 3⟩)).1.map StatusInfo.status
      = some SrcStatus.file_not_found)
    ∧ HealthAlert.reconnectAlert ∉
        (source_health_check_step 1000 (MtimeObs.found 999)
          (some ⟨SrcStatus.file_not_found, 3⟩)).2
    ∧ dictGet (prune_statuses ["a"] [("a", ⟨SrcStatus.connected, 0⟩),
        ("b", ⟨SrcStatus.file_not_found, 1⟩)]) "b"
      = if "b" ∈ (["a"] : List String)
        then dictGet [("a", (⟨SrcStatus.connected, 0⟩ : StatusInfo)),
          ("b", ⟨SrcStatus.file_not_found, 1⟩)] "b" else none :=
  ⟨(file_not_found_is_terminal 1000 3 (MtimeObs.found 999) ["a"] [] "b").1,
   (file_not_found_is_terminal 1000 3 (MtimeObs.found 999) ["a"] [] "b").2.1,
   (file_not_found_is_terminal 1000 3 (MtimeObs.found 999) ["a"]
     [("a", ⟨SrcStatus.connected, 0⟩), ("b", ⟨SrcStatus.file_not_found, 1⟩)] "b").2.2⟩

/-- Claim C4 (counterexample). The claim says every line with a recognized
    marker whose payload fails the variant's field contract yields a
    ParseError echoing the line. The line `[TRADE_OPEN] a,b` carries the
    TRADE_OPEN marker with too few fields, yet the parser returns no message
    and no trade data at all — it is silently dropped. -/
theorem malformed_open_line_dropped_cex :
    parse_and_format_log_line [] 0 "[TRADE_OPEN] a,b" ⟨[], false, []⟩
      = ((none, none), ⟨[], false, []⟩) := by decide

theorem stopMatch_empty : stopMatch "" = none := by decide

/-- Arity guard of the DD_ALERT branch: any part count other than 5 lands in
    the parse-error arm. -/
theorem alert_branch_core_arity (line : String) (parts : List String)
    (h : parts.length ≠ 5) : alert_branch_core line parts = parseErrorResult line := by
  match parts with
  | [] => rfl
  | [a] => rfl
  | [a, b] => rfl
  | [a, b, c] => rfl
  | [a, b, c, d] => rfl
  | [a, b, c, d, e] => exact absurd rfl h
  | a :: b :: c :: d :: e :: f :: rest => rfl

/-- Arity guard of the DD_STOP branch: any part count other than 6 lands in
    the parse-error arm. -/
theorem stop_branch_core_arity (line : String) (parts : List String)
    (h : parts.length ≠ 6) : stop_branch_core line parts = parseErrorResult line := by
  match parts with
  | [] => rfl
  | [a] => rfl
  | [a, b] => rfl
  | [a, b, c] => rfl
  | [a, b, c, d] => rfl
  | [a, b, c, d, e] => rfl
  | [a, b, c, d, e, f] => exact absurd rfl h
  | a :: b :: c :: d :: e :: f :: g :: rest => rfl

/-- Conversion guard of the DD_ALERT branch: if any of the four `float()`
    calls fails (the ValueError), the result is the parse-error arm. -/
theorem alert_branch_core_float (line copy_id dd dollar_loss start_equity peak_equity : String)
    (h : pyParseFloat dd = none ∨ pyParseFloat dollar_loss = none
      ∨ pyParseFloat start_equity = none ∨ pyParseFloat peak_equity = none) :
    alert_branch_core line [copy_id, dd, dollar_loss, start_equity, peak_equity]
      = parseErrorResult line := by
  simp only [alert_branch_core]
  cases h1 : pyParseFloat dd <;> cases h2 : pyParseFloat dollar_loss <;>
    cases h3 : pyParseFloat start_equity <;> cases h4 : pyParseFloat peak_equity <;>
    simp_all

/-- Conversion guard of the DD_STOP branch: if any of the three `float()`
    calls (`dd`, `dollar_loss`, `dd_limit`) fails, the result is the
    parse-error arm. -/
theorem stop_branch_core_float
    (line copy_id dd dd_limit dollar_loss start_equity peak_equity : String)
    (h : pyParseFloat dd = none ∨ pyParseFloat dollar_loss = none
      ∨ pyParseFloat dd_limit = none) :
    stop_branch_core line [copy_id, dd, dd_limit, dollar_loss, start_equity, peak_equity]
      = parseErrorResult line := by
  simp only [stop_branch_core]
  cases h1 : pyParseFloat dd <;> cases h2 : pyParseFloat dollar_loss <;>
    cases h3 : pyParseFloat dd_limit <;> simp_all

/-- A line whose first match is the DD_ALERT pattern runs the alert branch. -/
theorem parse_alert_line (map : List (String × SourceInfo)) (now : ℚ)
    (rawLine payload : String) (st : ParserState)
    (hOpen : openMatch (pyStrip rawLine) = none)
    (hClose : closeMatch (pyStrip rawLine) = none)
    (hAlert : alertMatch (pyStrip rawLine) = some payload) :
    parse_and_format_log_line map now rawLine st
      = (alert_branch (pyStrip rawLine) payload, st) := by
  have hne : pyStrip rawLine ≠ "" := by
    intro h
    rw [h, alertMatch_empty] at hAlert
    exact Option.noConfusion hAlert
  simp only [parse_and_format_log_line]
  rw [if_neg hne, hOpen, matchOpt_none, hClose, matchOpt_none, hAlert, matchOpt_some]

/-- A line whose first match is the DD_STOP pattern runs the stop branch. -/
theorem parse_stop_line (map : List (String × SourceInfo)) (now : ℚ)
    (rawLine payload : String) (st : ParserState)
    (hOpen : openMatch (pyStrip rawLine) = none)
    (hClose : closeMatch (pyStrip rawLine) = none)
    (hAlert : alertMatch (pyStrip rawLine) = none)
    (hStop : stopMatch (pyStrip rawLine) = some payload) :
    parse_and_format_log_line map now rawLine st
      = (stop_branch (pyStrip rawLine) payload, st) := by
  have hne : pyStrip rawLine ≠ "" := by
    intro h
    rw [h, stopMatch_empty] at hStop
    exact Option.noConfusion hStop
  simp only [parse_and_format_log_line]
  rw [if_neg hne, hOpen, matchOpt_none, hClose, matchOpt_none, hAlert, matchOpt_none,
    hStop, matchOpt_some]

/-- Claim C4 (amended). A line whose payload matches a variant's regular
    expression but fails the subsequent validation yields the ParseError
    result echoing the (stripped) raw line: a DD_ALERT payload whose
    comma-split arity is not 5, a DD_ALERT payload of arity 5 with a field
    that fails `float()`, a DD_STOP payload whose arity is not 6, and a
    DD_STOP payload of arity 6 whose `dd`, `dollar_loss` or `dd_limit` field
    fails `float()`. But a line whose recognized marker's payload fails the
    marker's regular expression itself matches no branch and is silently
    dropped: when every pattern fails to match, the parser returns no
    message, no trade data, and the unchanged state. -/
theorem malformed_payload_surfacing :
    (∀ (map : List (String × SourceInfo)) (now : ℚ) (rawLine payload : String)
        (st : ParserState),
      openMatch (pyStrip rawLine) = none → closeMatch (pyStrip rawLine) = none →
      alertMatch (pyStrip rawLine) = some payload →
      (splitComma payload.data).length ≠ 5 →
      parse_and_format_log_line map now rawLine st
        = ((some (parseErrorMsg (pyStrip rawLine)), none), st))
    ∧ (∀ (map : List (String × SourceInfo)) (now : ℚ)
        (rawLine payload copy_id dd dollar_loss start_equity peak_equity : String)
        (st : ParserState),
      openMatch (pyStrip rawLine) = none → closeMatch (pyStrip rawLine) = none →
      alertMatch (pyStrip rawLine) = some payload →
      (splitComma payload.data).map (fun l => pyStrip ⟨l⟩)
        = [copy_id, dd, dollar_loss, start_equity, peak_equity] →
      (pyParseFloat dd = none ∨ pyParseFloat dollar_loss = none
        ∨ pyParseFloat start_equity = none ∨ pyParseFloat peak_equity = none) →
      parse_and_format_log_line map now rawLine st
        = ((some (parseErrorMsg (pyStrip rawLine)), none), st))
    ∧ (∀ (map : List (String × SourceInfo)) (now : ℚ) (rawLine payload : String)
        (st : ParserState),
      openMatch (pyStrip rawLine) = none → closeMatch (pyStrip rawLine) = none →
      alertMatch (pyStrip rawLine) = none → stopMatch (pyStrip rawLine) = some payload →
      (splitComma payload.data).length ≠ 6 →
      parse_and_format_log_line map now rawLine st
        = ((some (parseErrorMsg (pyStrip rawLine)), none), st))
    ∧ (∀ (map : List (String × SourceInfo)) (now : ℚ)
        (rawLine payload copy_id dd dd_limit dollar_loss start_equity peak_equity : String)
        (st : ParserState),
      openMatch (pyStrip rawLine) = none → closeMatch (pyStrip rawLine) = none →
      alertMatch (pyStrip rawLine) = none → stopMatch (pyStrip rawLine) = some payload →
      (splitComma payload.data).map (fun l => pyStrip ⟨l⟩)
        = [copy_id, dd, dd_limit, dollar_loss, start_equity, peak_equity] →
      (pyParseFloat dd = none ∨ pyParseFloat dollar_loss = none
        ∨ pyParseFloat dd_limit = none) →
      parse_and_format_log_line map now rawLine st
        = ((some (parseErrorMsg (pyStrip rawLine)), none), st))
    ∧ (∀ (map : List (String × SourceInfo)) (now : ℚ) (rawLine : String)
        (st : ParserState),
      openMatch (pyStrip rawLine) = none → closeMatch (pyStrip rawLine) = none →
      alertMatch (pyStrip rawLine) = none → stopMatch (pyStrip rawLine) = none →
      resetMatch (pyStrip rawLine) = none → errorMatch (pyStrip rawLine) = none →
      maxLotMatch (pyStrip rawLine) = none → maxTradesMatch (pyStrip rawLine) = none →
      sourceDdMatch (pyStrip rawLine) = none →
      parse_and_format_log_line map now rawLine st = ((none, none), st)) := by
  refine ⟨?_, ?_, ?_, ?_, ?_⟩
  · intro map now rawLine payload st hOpen hClose hAlert h5
    rw [parse_alert_line map now rawLine payload st hOpen hClose hAlert]
    unfold alert_branch
    rw [alert_branch_core_arity _ _ (by rwa [List.length_map])]
    rfl
  · intro map now rawLine payload copy_id dd dollar_loss start_equity peak_equity st
      hOpen hClose hAlert hparts hfail
    rw [parse_alert_line map now rawLine payload st hOpen hClose hAlert]
    unfold alert_branch
    rw [hparts, alert_branch_core_float _ _ _ _ _ _ hfail]
    rfl
  · intro map now rawLine payload st hOpen hClose hAlert hStop h6
    rw [parse_stop_line map now rawLine payload st hOpen hClose hAlert hStop]
    unfold stop_branch
    rw [stop_branch_core_arity _ _ (by rwa [List.length_map])]
    rfl
  · intro map now rawLine payload copy_id dd dd_limit dollar_loss start_equity peak_equity
      st hOpen hClose hAlert hStop hparts hfail
    rw [parse_stop_line map now rawLine payload st hOpen hClose hAlert hStop]
    unfold stop_branch
    rw [hparts, stop_branch_core_float _ _ _ _ _ _ _ hfail]
    rfl
  · intro map now rawLine st hOpen hClose hAlert hStop hReset hErr hL1 hL2 hL3
    by_cases hne : pyStrip rawLine = ""
    · simp only [parse_and_format_log_line]
      rw [if_pos hne]
    · simp only [parse_and_format_log_line]
      rw [if_neg hne, hOpen, matchOpt_none, hClose, matchOpt_none, hAlert, matchOpt_none,
        hStop, matchOpt_none, hReset, matchOpt_none, hErr, matchOpt_none, hL1,
        matchOpt_none, hL2, matchOpt_none, hL3, matchOpt_none]

/-- Witness for the amended C4: an arity-2 DD_ALERT payload, a DD_ALERT
    payload with a non-numeric loss field, an arity-2 DD_STOP payload and a
    DD_STOP payload with a non-numeric threshold field all surface as a
    ParseError echoing the line; a line matching no pattern is dropped. -/
theorem malformed_payload_surfacing_witness :
    (splitComma ("a,b".data)).length ≠ 5
    ∧ parse_and_format_log_line [] 0 "[DD_ALERT] a,b" ⟨[], false, []⟩
        = ((some "⚠️ *Parse Error in Log*\n`[DD_ALERT] a,b`", none), ⟨[], false, []⟩)
    ∧ pyParseFloat "xx" = none
    ∧ parse_and_format_log_line [] 0 "[DD_ALERT] c,xx,2,3,4" ⟨[], false, []⟩
        = ((some "⚠️ *Parse Error in Log*\n`[DD_ALERT] c,xx,2,3,4`", none), ⟨[], false, []⟩)
    ∧ parse_and_format_log_line [] 0 "[DD_STOP] a,b" ⟨[], false, []⟩
        = ((some "⚠️ *Parse Error in Log*\n`[DD_STOP] a,b`", none), ⟨[], false, []⟩)
    ∧ pyParseFloat "zz" = none
    ∧ parse_and_format_log_line [] 0 "[DD_STOP] c,1.5,zz,20,1000,1100" ⟨[], false, []⟩
        = ((some "⚠️ *Parse Error in Log*\n`[DD_STOP] c,1.5,zz,20,1000,1100`", none),
           ⟨[], false, []⟩)
    ∧ parse_and_format_log_line [] 0 "no marker here" ⟨[], false, []⟩
        = ((none, none), ⟨[], false, []⟩) := by
  refine ⟨by decide, ?_, by decide, ?_, ?_, by decide, ?_, ?_⟩
  · rw [malformed_payload_surfacing.1 [] 0 "[DD_ALERT] a,b" "a,b" ⟨[], false, []⟩
      (by decide) (by decide) (by decide) (by decide)]
    decide
  · rw [malformed_payload_surfacing.2.1 [] 0 "[DD_ALERT] c,xx,2,3,4" "c,xx,2,3,4"
      "c" "xx" "2" "3" "4" ⟨[], false, []⟩
      (by decide) (by decide) (by decide) (by decide) (Or.inl (by decide))]
    decide
  · rw [malformed_payload_surfacing.2.2.1 [] 0 "[DD_STOP] a,b" "a,b" ⟨[], false, []⟩
      (by decide) (by decide) (by decide) (by decide) (by decide)]
    decide
  · rw [malformed_payload_surfacing.2.2.2.1 [] 0 "[DD_STOP] c,1.5,zz,20,1000,1100"
      "c,1.5,zz,20,1000,1100" "c" "1.5" "zz" "20" "1000" "1100" ⟨[], false, []⟩
      (by decide) (by decide) (by decide) (by decide) (by decide)
      (Or.inr (Or.inr (by decide)))]
    decide
  · exact malformed_payload_surfacing.2.2.2.2 [] 0 "no marker here" ⟨[], false, []⟩
      (by decide) (by decide) (by decide) (by decide) (by decide) (by decide)
      (by decide) (by decide) (by decide)

/-! Processing a sequence of (time, line) observations through the parser,
    collecting the formatted messages. -/

/-- Fold of the parser over a list of timed lines. -/
def parse_many (map : List (String × SourceInfo)) :
    List (ℚ × String) → ParserState → List (Option String) × ParserState
  | [], st => ([], st)
  | (t, l) :: rest, st =>
    let r := parse_and_format_log_line map t l st
    let r' := parse_many map rest r.2
    (r.1.1 :: r'.1, r'.2)

theorem parse_many_append (map : List (String × SourceInfo)) (a b : List (ℚ × String))
    (st : ParserState) :
    parse_many map (a ++ b) st
      = ((parse_many map a st).1 ++ (parse_many map b (parse_many map a st).2).1,
         (parse_many map b (parse_many map a st).2).2) := by
  induction a generalizing st with
  | nil => simp [parse_many]
  | cons x xs ih =>
    obtain ⟨t, l⟩ := x
    simp [parse_many, ih]

/-- A line whose first match is the ERROR pattern runs the error branch. -/
theorem parse_error_line (map : List (String × SourceInfo)) (now : ℚ)
    (rawLine em : String) (st : ParserState)
    (hOpen : openMatch (pyStrip rawLine) = none)
    (hClose : closeMatch (pyStrip rawLine) = none)
    (hAlert : alertMatch (pyStrip rawLine) = none)
    (hStop : stopMatch (pyStrip rawLine) = none)
    (hReset : resetMatch (pyStrip rawLine) = none)
    (hErr : errorMatch (pyStrip rawLine) = some em) :
    parse_and_format_log_line map now rawLine st = error_branch st now em := by
  have hne : pyStrip rawLine ≠ "" := by
    intro h
    rw [h, errorMatch_empty] at hErr
    exact Option.noConfusion hErr
  simp only [parse_and_format_log_line]
  rw [if_neg hne, hOpen, matchOpt_none, hClose, matchOpt_none, hAlert, matchOpt_none,
    hStop, matchOpt_none, hReset, matchOpt_none, hErr, matchOpt_some]

/-- The error branch on a message with a benign key: cooldown comparison
    against the key's last-sent time. -/
theorem error_branch_benign (st : ParserState) (now : ℚ) (g k : String) (c : ℚ)
    (hKey : findBenignKey (pyStrip g) = some (k, c)) :
    error_branch st now g =
      (if now - dictGetD st.benign_last_sent k 0 > c then
        ((some (benignErrorMsg (pyStrip g)), none),
         { st with benign_last_sent := dictSet st.benign_last_sent k now })
      else ((none, none), st)) := by
  simp only [error_branch]
  rw [hKey, matchOpt_some]

/-- Suppressed middle occurrences: while the key's last-sent time is `t0` and
    every occurrence is within the cooldown, nothing is emitted and the state
    never changes. -/
theorem benign_mid_suppressed (map : List (String × SourceInfo))
    (rawLine em k : String) (c t0 : ℚ)
    (hOpen : openMatch (pyStrip rawLine) = none)
    (hClose : closeMatch (pyStrip rawLine) = none)
    (hAlert : alertMatch (pyStrip rawLine) = none)
    (hStop : stopMatch (pyStrip rawLine) = none)
    (hReset : resetMatch (pyStrip rawLine) = none)
    (hErr : errorMatch (pyStrip rawLine) = some em)
    (hKey : findBenignKey (pyStrip em) = some (k, c)) :
    ∀ (mid : List ℚ) (st : ParserState),
      dictGetD st.benign_last_sent k 0 = t0 →
      (∀ t ∈ mid, ¬(t - t0 > c)) →
      parse_many map (mid.map (fun t => (t, rawLine))) st
        = (mid.map (fun _ => (none : Option String)), st) := by
  intro mid
  induction mid with
  | nil => intro st _ _; rfl
  | cons t rest ih =>
    intro st hst hmid
    have hchar : parse_and_format_log_line map t rawLine st = ((none, none), st) := by
      rw [parse_error_line map t rawLine em st hOpen hClose hAlert hStop hReset hErr,
        error_branch_benign st t em k c hKey, hst,
        if_neg (hmid t (List.mem_cons_self t rest))]
    simp only [List.map_cons, parse_many, hchar]
    rw [ih st hst (fun x hx => hmid x (List.mem_cons_of_mem t hx))]

/-- Claim C6. For a benign error line with key `k` and cooldown `c`: of
    `1 + |mid|` occurrences, the first (past the previous cooldown) is
    delivered and all later occurrences within the cooldown window are
    suppressed without touching the state; the first occurrence past the
    cooldown is delivered again and resets the key's timer. Error lines
    matching no benign key always produce the critical alert and are never
    throttled. -/
theorem benign_error_throttling
    (map : List (String × SourceInfo)) (st0 : ParserState) (rawLine em k : String)
    (c L t0 t' : ℚ) (mid : List ℚ)
    (hOpen : openMatch (pyStrip rawLine) = none)
    (hClose : closeMatch (pyStrip rawLine) = none)
    (hAlert : alertMatch (pyStrip rawLine) = none)
    (hStop : stopMatch (pyStrip rawLine) = none)
    (hReset : resetMatch (pyStrip rawLine) = none)
    (hErr : errorMatch (pyStrip rawLine) = some em)
    (hKey : findBenignKey (pyStrip em) = some (k, c))
    (hL : dictGetD st0.benign_last_sent k 0 = L)
    (hFirst : t0 - L > c)
    (hMid : ∀ t ∈ mid, ¬(t - t0 > c))
    (hLate : t' - t0 > c) :
    parse_many map
        ((t0, rawLine) :: (mid.map (fun t => (t, rawLine)) ++ [(t', rawLine)])) st0
      = (some (benignErrorMsg (pyStrip em))
          :: (mid.map (fun _ => (none : Option String))
            ++ [some (benignErrorMsg (pyStrip em))]),
         { st0 with benign_last_sent := dictSet st0.benign_last_sent k t' })
    ∧ (∀ (rawLine2 em2 : String) (now : ℚ) (st : ParserState),
        openMatch (pyStrip rawLine2) = none → closeMatch (pyStrip rawLine2) = none →
        alertMatch (pyStrip rawLine2) = none → stopMatch (pyStrip rawLine2) = none →
        resetMatch (pyStrip rawLine2) = none → errorMatch (pyStrip rawLine2) = some em2 →
        findBenignKey (pyStrip em2) = none →
        parse_and_format_log_line map now rawLine2 st
          = ((some (criticalErrorMsg (pyStrip em2)), none), st)) := by
  constructor
  · have h0 : parse_and_format_log_line map t0 rawLine st0
        = ((some (benignErrorMsg (pyStrip em)), none),
           { st0 with benign_last_sent := dictSet st0.benign_last_sent k t0 }) := by
      rw [parse_error_line map t0 rawLine em st0 hOpen hClose hAlert hStop hReset hErr,
        error_branch_benign st0 t0 em k c hKey, hL, if_pos hFirst]
    have hget1 : dictGetD (dictSet st0.benign_last_sent k t0) k 0 = t0 :=
      dictGetD_dictSet_self st0.benign_last_sent k t0 0
    have hmid' := benign_mid_suppressed map rawLine em k c t0
      hOpen hClose hAlert hStop hReset hErr hKey mid
      { st0 with benign_last_sent := dictSet st0.benign_last_sent k t0 } hget1 hMid
    have hlast : parse_and_format_log_line map t' rawLine
        { st0 with benign_last_sent := dictSet st0.benign_last_sent k t0 }
        = ((some (benignErrorMsg (pyStrip em)), none),
           { st0 with benign_last_sent := dictSet st0.benign_last_sent k t' }) := by
      rw [parse_error_line map t' rawLine em _ hOpen hClose hAlert hStop hReset hErr,
        error_branch_benign _ t' em k c hKey]
      simp only [hget1, if_pos hLate]
      rw [dictSet_dictSet_self]
    simp only [parse_many, h0]
    rw [parse_many_append map (mid.map (fun t => (t, rawLine))) [(t', rawLine)] _]
    rw [hmid']
    simp only [parse_many, hlast]
  · intro rawLine2 em2 now st h1 h2 h3 h4 h5 h6 hNone
    rw [parse_error_line map now rawLine2 em2 st h1 h2 h3 h4 h5 h6]
    simp only [error_branch]
    rw [hNone, matchOpt_none]

/-- Witness for C6: four occurrences of a `Requote` error at 601, 700, 1000
    and 1300 seconds (cooldown 600) deliver exactly the first and last; a
    non-benign error always alerts. -/
theorem benign_error_throttling_witness :
    findBenignKey "Requote at broker" = some ("Requote", 600)
    ∧ parse_many [] [((601 : ℚ), "[ERROR] - Requote at broker"),
        (700, "[ERROR] - Requote at broker"), (1000, "[ERROR] - Requote at broker"),
        (1300, "[ERROR] - Requote at broker")] ⟨[], false, []⟩
      = ([some (benignErrorMsg "Requote at broker"), none, none,
          some (benignErrorMsg "Requote at broker")],
         ⟨[], false, [("Requote", 1300)]⟩)
    ∧ parse_and_format_log_line [] 0 "[ERROR] - weird failure xyz" ⟨[], false, []⟩
        = ((some (criticalErrorMsg "weird failure xyz"), none), ⟨[], false, []⟩) := by
  refine ⟨by decide, ?_, ?_⟩
  · exact (benign_error_throttling [] ⟨[], false, []⟩ "[ERROR] - Requote at broker"
      "Requote at broker" "Requote" 600 0 601 1300 [700, 1000]
      (by decide) (by decide) (by decide) (by decide) (by decide) (by decide)
      (by decide) (by decide) (by decide) (by decide) (by decide)).1
  · exact (benign_error_throttling [] ⟨[], false, []⟩ "[ERROR] - Requote at broker"
      "Requote at broker" "Requote" 600 0 601 1300 [700, 1000]
      (by decide) (by decide) (by decide) (by decide) (by decide) (by decide)
      (by decide) (by decide) (by decide) (by decide) (by decide)).2
      "[ERROR] - weird failure xyz" "weird failure xyz" 0 ⟨[], false, []⟩
      (by decide) (by decide) (by decide) (by decide) (by decide) (by decide) (by decide)

/-! Step characterizations for the health monitor. -/

theorem shc_step_disconnects (now mt : ℚ) (h : now - mt > DISCONNECT_THRESHOLD) :
    source_health_check_step now (MtimeObs.found mt) none
      = (some ⟨SrcStatus.disconnected, now⟩, [HealthAlert.disconnectAlert]) := by
  simp [source_health_check_step, h]

theorem shc_step_suppressed (now mt la : ℚ) (h : now - mt > DISCONNECT_THRESHOLD)
    (hc : ¬(now - la > ALERT_COOLDOWN)) :
    source_health_check_step now (MtimeObs.found mt) (some ⟨SrcStatus.disconnected, la⟩)
      = (some ⟨SrcStatus.disconnected, la⟩, []) := by
  simp [source_health_check_step, h, hc]

theorem shc_step_realerts (now mt la : ℚ) (h : now - mt > DISCONNECT_THRESHOLD)
    (hc : now - la > ALERT_COOLDOWN) :
    source_health_check_step now (MtimeObs.found mt) (some ⟨SrcStatus.disconnected, la⟩)
      = (some ⟨SrcStatus.disconnected, now⟩, [HealthAlert.stillDisconnectedAlert]) := by
  simp [source_health_check_step, h, hc]

theorem shc_step_reconnects (now mt la : ℚ) (h : ¬(now - mt > DISCONNECT_THRESHOLD)) :
    source_health_check_step now (MtimeObs.found mt) (some ⟨SrcStatus.disconnected, la⟩)
      = (some ⟨SrcStatus.connected, 0⟩, [HealthAlert.reconnectAlert]) := by
  simp [source_health_check_step, h]

/-- While disconnected with last alert at `la`, stale scans within the
    re-alert cooldown change nothing and emit nothing. -/
theorem shc_mid_quiet (mt la : ℚ) (mid : List ℚ)
    (hm : ∀ t ∈ mid, t - mt > DISCONNECT_THRESHOLD ∧ ¬(t - la > ALERT_COOLDOWN)) :
    source_health_run (mid.map (fun t => (t, MtimeObs.found mt)))
        (some ⟨SrcStatus.disconnected, la⟩)
      = (some ⟨SrcStatus.disconnected, la⟩, []) := by
  induction mid with
  | nil => rfl
  | cons t rest ih =>
    have hstep := shc_step_suppressed t mt la (hm t (List.mem_cons_self t rest)).1
      (hm t (List.mem_cons_self t rest)).2
    simp only [List.map_cons, source_health_run, hstep]
    rw [ih (fun x hx => hm x (List.mem_cons_of_mem t hx))]
    rfl

/-- Claim C8. A source first seen stale at `t1` transitions to disconnected
    with exactly one alert at that scan; later stale scans within the
    300-second re-alert cooldown emit nothing; the first stale scan past the
    cooldown re-alerts and refreshes the timer. A disconnected source whose
    file is fresh again reconnects with a reconnection alert and a reset
    timer. -/
theorem health_disconnect_alert_discipline (mt t1 t' : ℚ) (mid : List ℚ)
    (h1 : t1 - mt > DISCONNECT_THRESHOLD)
    (hm : ∀ t ∈ mid, t - mt > DISCONNECT_THRESHOLD ∧ ¬(t - t1 > ALERT_COOLDOWN))
    (h2 : t' - mt > DISCONNECT_THRESHOLD) (h3 : t' - t1 > ALERT_COOLDOWN) :
    source_health_run ((t1, MtimeObs.found mt)
        :: (mid.map (fun t => (t, MtimeObs.found mt)) ++ [(t', MtimeObs.found mt)])) none
      = (some ⟨SrcStatus.disconnected, t'⟩,
         [HealthAlert.disconnectAlert, HealthAlert.stillDisconnectedAlert])
    ∧ (∀ (la now m : ℚ), ¬(now - m > DISCONNECT_THRESHOLD) →
        source_health_check_step now (MtimeObs.found m)
            (some ⟨SrcStatus.disconnected, la⟩)
          = (some ⟨SrcStatus.connected, 0⟩, [HealthAlert.reconnectAlert])) := by
  constructor
  · have hrun_append : ∀ (a b : List (ℚ × MtimeObs)) (cur : Option StatusInfo),
        source_health_run (a ++ b) cur
          = ((source_health_run b (source_health_run a cur).1).1,
             (source_health_run a cur).2
               ++ (source_health_run b (source_health_run a cur).1).2) := by
      intro a
      induction a with
      | nil => intro b cur; simp [source_health_run]
      | cons x xs ih =>
        intro b cur
        obtain ⟨t, o⟩ := x
        simp [source_health_run, ih]
    simp only [source_health_run, shc_step_disconnects t1 mt h1]
    rw [hrun_append (mid.map (fun t => (t, MtimeObs.found mt))) [(t', MtimeObs.found mt)] _]
    rw [shc_mid_quiet mt t1 mid hm]
    simp only [source_health_run, shc_step_realerts t' mt t1 h2 h3]
    rfl
  · intro la now m h
    exact shc_step_reconnects now m la h

/-- Witness for C8: mtime frozen at 0, scans at 121, 200, 300 and 422
    seconds produce exactly the disconnect alert and one re-alert; a fresh
    scan from disconnected reconnects. -/
theorem health_disconnect_alert_discipline_witness :
    (∀ t ∈ [(200 : ℚ), 300], t - 0 > DISCONNECT_THRESHOLD ∧ ¬(t - 121 > ALERT_COOLDOWN))
    ∧ source_health_run [((121 : ℚ), MtimeObs.found 0), (200, MtimeObs.found 0),
        (300, MtimeObs.found 0), (422, MtimeObs.found 0)] none
      = (some ⟨SrcStatus.disconnected, 422⟩,
         [HealthAlert.disconnectAlert, HealthAlert.stillDisconnectedAlert])
    ∧ source_health_check_step 10 (MtimeObs.found 5) (some ⟨SrcStatus.disconnected, 3⟩)
        = (some ⟨SrcStatus.connected, 0⟩, [HealthAlert.reconnectAlert]) :=
  ⟨by decide,
   (health_disconnect_alert_discipline 0 121 422 [200, 300]
     (by decide) (by decide) (by decide) (by decide)).1,
   (health_disconnect_alert_discipline 0 121 422 [200, 300]
     (by decide) (by decide) (by decide) (by decide)).2 3 10 5 (by decide)⟩

/-! Lemmas about the rotation scan. -/

theorem addToGroup_keys (g : List (String × List FileInfo)) (id : String) (f : FileInfo) :
    (addToGroup g id f).map Prod.fst
      = if id ∈ g.map Prod.fst then g.map Prod.fst else g.map Prod.fst ++ [id] := by
  induction g with
  | nil => simp [addToGroup]
  | cons p t ih =>
    obtain ⟨k, fs⟩ := p
    by_cases hk : k = id
    · subst hk
      simp [addToGroup]
    · simp only [addToGroup, hk, if_false, List.map_cons]
      by_cases hm : id ∈ t.map Prod.fst
      · simp [hm, Ne.symm hk, ih]
      · simp [hm, Ne.symm hk, ih]

theorem addToGroup_nodup (g : List (String × List FileInfo)) (id : String) (f : FileInfo)
    (h : (g.map Prod.fst).Nodup) : ((addToGroup g id f).map Prod.fst).Nodup := by
  rw [addToGroup_keys]
  by_cases hm : id ∈ g.map Prod.fst
  · simpa [hm] using h
  · simp [hm, List.nodup_append, h]

theorem addToGroup_vals (g : List (String × List FileInfo)) (id : String) (f : FileInfo)
    (h : ∀ p ∈ g, p.2 ≠ []) : ∀ p ∈ addToGroup g id f, p.2 ≠ [] := by
  induction g with
  | nil =>
    intro p hp
    simp only [addToGroup, List.mem_singleton] at hp
    subst hp
    simp
  | cons q t ih =>
    obtain ⟨k, fs⟩ := q
    intro p hp
    simp only [addToGroup] at hp
    by_cases hk : k = id
    · rw [if_pos hk] at hp
      rcases List.mem_cons.mp hp with hp | hp
      · subst hp; simp
      · exact h p (List.mem_cons_of_mem _ hp)
    · rw [if_neg hk] at hp
      rcases List.mem_cons.mp hp with hp | hp
      · subst hp; exact h (k, fs) (List.mem_cons_self _ _)
      · exact ih (fun q hq => h q (List.mem_cons_of_mem _ hq)) p hp

theorem group_files_from_nodup (files : List FileInfo) :
    ∀ acc, (acc.map Prod.fst).Nodup →
      ((group_files_from acc files).map Prod.fst).Nodup := by
  induction files with
  | nil => intro acc h; exact h
  | cons f rest ih =>
    intro acc h
    simp only [group_files_from]
    cases hx : extract_slave_id f.base with
    | none => rw [matchOpt_none]; exact ih acc h
    | some id =>
      rw [matchOpt_some]
      by_cases hid : id = ""
      · rw [if_pos hid]; exact ih acc h
      · rw [if_neg hid]; exact ih _ (addToGroup_nodup acc id f h)

theorem group_files_from_vals (files : List FileInfo) :
    ∀ acc, (∀ p ∈ acc, p.2 ≠ []) →
      ∀ p ∈ group_files_from acc files, p.2 ≠ [] := by
  induction files with
  | nil => intro acc h; exact h
  | cons f rest ih =>
    intro acc h
    simp only [group_files_from]
    cases hx : extract_slave_id f.base with
    | none => rw [matchOpt_none]; exact ih acc h
    | some id =>
      rw [matchOpt_some]
      by_cases hid : id = ""
      · rw [if_pos hid]; exact ih acc h
      · rw [if_neg hid]; exact ih _ (addToGroup_vals acc id f h)

theorem pick_latest_spec (fs : List FileInfo) : ∀ f : FileInfo,
    (pick_latest f fs = f ∨ pick_latest f fs ∈ fs)
    ∧ f.ctime ≤ (pick_latest f fs).ctime
    ∧ ∀ g ∈ fs, g.ctime ≤ (pick_latest f fs).ctime := by
  induction fs with
  | nil => intro f; exact ⟨Or.inl rfl, le_refl _, by simp⟩
  | cons g gs ih =>
    intro f
    have hred : pick_latest f (g :: gs)
        = pick_latest (if f.ctime < g.ctime then g else f) gs := rfl
    obtain ⟨hmem, hle, hall⟩ := ih (if f.ctime < g.ctime then g else f)
    refine ⟨?_, ?_, ?_⟩
    · rw [hred]
      rcases hmem with h | h
      · by_cases hlt : f.ctime < g.ctime
        · right
          rw [h, if_pos hlt]
          exact List.mem_cons_self _ _
        · left
          rw [h, if_neg hlt]
      · right
        exact List.mem_cons_of_mem g h
    · rw [hred]
      by_cases hlt : f.ctime < g.ctime
      · exact le_trans (le_of_lt hlt) (by simpa [hlt] using hle)
      · simpa [hlt] using hle
    · rw [hred]
      intro x hx
      rcases List.mem_cons.mp hx with h | h
      · subst h
        by_cases hlt : f.ctime < x.ctime
        · simpa [hlt] using hle
        · exact le_trans (le_of_not_lt hlt) (by simpa [hlt] using hle)
      · exact hall x h

theorem scan_groups_preserve (gs : List (String × List FileInfo)) :
    ∀ (w : List (String × String)) (c s : ℕ) (id : String),
      id ∉ gs.map Prod.fst →
      dictGet (scan_groups gs (w, c, s)).1 id = dictGet w id := by
  induction gs with
  | nil => intro w c s id _; rfl
  | cons p rest ih =>
    obtain ⟨id0, fs⟩ := p
    intro w c s id h
    simp only [List.map_cons, List.mem_cons] at h
    push_neg at h
    obtain ⟨h1, h2⟩ := h
    simp only [scan_groups]
    cases hl : latest_file fs with
    | none => rw [matchOpt_none]; exact ih w c s id h2
    | some latest =>
      rw [matchOpt_some]
      by_cases hw : dictGet w id0 = some latest.path
      · rw [if_pos hw]; exact ih w c s id h2
      · rw [if_neg hw]
        rw [ih _ _ _ id h2]
        exact dictGet_dictSet_ne w id0 id latest.path (Ne.symm h1)

theorem scan_groups_post (gs : List (String × List FileInfo)) :
    ∀ (w : List (String × String)) (c s : ℕ),
      (gs.map Prod.fst).Nodup →
      ∀ (id : String) (fs : List FileInfo) (latest : FileInfo),
        (id, fs) ∈ gs → latest_file fs = some latest →
        dictGet (scan_groups gs (w, c, s)).1 id = some latest.path := by
  induction gs with
  | nil =>
    intro w c s _ id fs latest h
    simp at h
  | cons p rest ih =>
    obtain ⟨id0, fs0⟩ := p
    intro w c s hnd id fs latest hmem hl
    simp only [List.map_cons, List.nodup_cons] at hnd
    obtain ⟨hnd0, hndr⟩ := hnd
    rcases List.mem_cons.mp hmem with he | htail
    · have h1 : id = id0 := congrArg Prod.fst he
      have h2 : fs = fs0 := congrArg Prod.snd he
      subst h1
      subst h2
      simp only [scan_groups]
      rw [hl, matchOpt_some]
      by_cases hw : dictGet w id = some latest.path
      · rw [if_pos hw, scan_groups_preserve rest _ _ _ id hnd0]
        exact hw
      · rw [if_neg hw, scan_groups_preserve rest _ _ _ id hnd0]
        exact dictGet_dictSet_self w id latest.path
    · simp only [scan_groups]
      cases hl0 : latest_file fs0 with
      | none => rw [matchOpt_none]; exact ih _ _ _ hndr id fs latest htail hl
      | some l0 =>
        rw [matchOpt_some]
        by_cases hw : dictGet w id0 = some l0.path
        · rw [if_pos hw]; exact ih _ _ _ hndr id fs latest htail hl
        · rw [if_neg hw]; exact ih _ _ _ hndr id fs latest htail hl

theorem scan_groups_noop (gs : List (String × List FileInfo)) :
    ∀ (w : List (String × String)) (c s : ℕ),
      (∀ (id : String) (fs : List FileInfo) (latest : FileInfo),
        (id, fs) ∈ gs → latest_file fs = some latest →
        dictGet w id = some latest.path) →
      scan_groups gs (w, c, s) = (w, c, s) := by
  induction gs with
  | nil => intro w c s _; rfl
  | cons p rest ih =>
    obtain ⟨id0, fs0⟩ := p
    intro w c s h
    simp only [scan_groups]
    cases hl : latest_file fs0 with
    | none =>
      rw [matchOpt_none]
      exact ih w c s (fun id fs l hm hlat => h id fs l (List.mem_cons_of_mem _ hm) hlat)
    | some l0 =>
      rw [matchOpt_some, if_pos (h id0 fs0 l0 (List.mem_cons_self _ _) hl)]
      exact ih w c s (fun id fs l hm hlat => h id fs l (List.mem_cons_of_mem _ hm) hlat)

/-- Claim C7. One Rotation Manager cycle is idempotent: re-running the scan
    on an unchanged directory listing cancels zero and starts zero Tailers
    and leaves the watched map unchanged. And for every id present in the
    grouped listing, the watched map afterwards holds exactly one file for
    that id — one with the maximal creation time of the group. -/
theorem rotation_scan_idempotent_and_latest (files : List FileInfo)
    (w : List (String × String)) :
    rotation_scan files (rotation_scan files w).1 = ((rotation_scan files w).1, 0, 0)
    ∧ ∀ (id : String) (fs : List FileInfo), (id, fs) ∈ group_files files →
        ∃ lf : FileInfo, latest_file fs = some lf
          ∧ dictGet (rotation_scan files w).1 id = some lf.path
          ∧ ∀ g ∈ fs, g.ctime ≤ lf.ctime := by
  have hnd : ((group_files files).map Prod.fst).Nodup :=
    group_files_from_nodup files [] (by simp)
  constructor
  · unfold rotation_scan
    exact scan_groups_noop (group_files files) _ 0 0
      (fun id fs latest hm hl =>
        scan_groups_post (group_files files) w 0 0 hnd id fs latest hm hl)
  · intro id fs hm
    have hfs : fs ≠ [] := group_files_from_vals files [] (by simp) (id, fs) hm
    match fs, hfs with
    | f :: fs', _ =>
      refine ⟨pick_latest f fs', rfl, ?_, ?_⟩
      · exact scan_groups_post (group_files files) w 0 0 hnd id _ _ hm rfl
      · intro g hg
        rcases List.mem_cons.mp hg with h | h
        · subst h
          exact (pick_latest_spec fs' g).2.1
        · exact (pick_latest_spec fs' f).2.2 g h

/-- Concrete rotated log file, older creation time. -/
def log_file_jan1 : FileInfo :=
  ⟨"/logs/TradeCopier_S1_2024.01.01.log", "TradeCopier_S1_2024.01.01.log", 1⟩

/-- Concrete rotated log file, newer creation time, same source id. -/
def log_file_jan2 : FileInfo :=
  ⟨"/logs/TradeCopier_S1_2024.01.02.log", "TradeCopier_S1_2024.01.02.log", 2⟩

/-- Witness for C7: two files for id `S1`; one cycle from an empty watched
    map tails the newer file, and a re-scan is a no-op with zero cancels and
    starts. -/
theorem rotation_scan_idempotent_and_latest_witness :
    ("S1", [log_file_jan1, log_file_jan2]) ∈ group_files [log_file_jan1, log_file_jan2]
    ∧ rotation_scan [log_file_jan1, log_file_jan2]
        (rotation_scan [log_file_jan1, log_file_jan2] []).1
      = ((rotation_scan [log_file_jan1, log_file_jan2] []).1, 0, 0)
    ∧ dictGet (rotation_scan [log_file_jan1, log_file_jan2] []).1 "S1"
        = some "/logs/TradeCopier_S1_2024.01.02.log" := by
  refine ⟨by decide, (rotation_scan_idempotent_and_latest [log_file_jan1, log_file_jan2] []).1, ?_⟩
  obtain ⟨lf, h1, h2, h3⟩ :=
    (rotation_scan_idempotent_and_latest [log_file_jan1, log_file_jan2] []).2
      "S1" [log_file_jan1, log_file_jan2] (by decide)
  have hlf : lf = log_file_jan2 := by
    have h' : latest_file [log_file_jan1, log_file_jan2] = some log_file_jan2 := by decide
    rw [h'] at h1
    exact (Option.some.inj h1).symm
  rw [hlf] at h2
  exact h2
